import Mathlib

/-!
Verification of the FBX binary exporter (`io_scene_fbx/export_fbx_bin.py`).

This file shallowly embeds the exporter's data model and operations in Lean:
pure Python functions become Lean functions, the module-global UID registry
becomes explicit state passing over `RegState`, Python dicts become
association lists with Python's insertion-order update semantics, and
fallible code returns `Except String`.  Python `float` values are embedded
as exact rationals (`Rat`); no verified claim depends on floating-point
rounding.  External collaborators named by the module but not part of it
(the `encode_bin` element/byte-packing library, `mathutils` matrix math,
Blender's scene API) are modelled from their documented interface, each
marked in its doc comment.
-/

set_option maxHeartbeats 1600000

namespace FbxExport

/-! ## Python dict / association list primitives -/

/-- Association-list lookup, mirroring a Python dict read (`d[k]` / `d.get(k)`). -/
def alookup {α β : Type} [DecidableEq α] (k : α) : List (α × β) → Option β
  | [] => none
  | p :: t => if p.1 = k then some p.2 else alookup k t

/-- Python dict write `d[k] = v`: replace the value in place when the key is
already present, otherwise append the new pair (Python dicts preserve
insertion order). -/
def dinsert {α β : Type} [DecidableEq α] (m : List (α × β)) (k : α) (v : β) :
    List (α × β) :=
  if (alookup k m).isSome then
    m.map (fun p => if p.1 = k then (k, v) else p)
  else
    m ++ [(k, v)]

/-! ## UID registry (`export_fbx_bin.py` lines 109-163)

Keys passed to `get_fbxuid_from_key` in the module are Python strings and the
integer `0`; `PyKey` covers both.  Python's built-in `hash` is modelled as an
explicit function parameter `h : PyKey → Int` (CPython string hashing is
seed-randomized, so any bounded value is reachable); integer keys inside the
legal range never reach `hash`, exactly as in the source. -/

inductive PyKey
  | kInt (n : Int)
  | kStr (s : String)
deriving DecidableEq, Repr

/-- The pair of module-level dicts `_keys_to_uids` / `_uids_to_keys`
(lines 117-118), made explicit state. -/
structure RegState where
  keysToUids : List (PyKey × Int)
  uidsToKeys : List (Int × PyKey)
deriving DecidableEq, Repr

/-- The registry state created at module import: both dicts empty. -/
def regInit : RegState := ⟨[], []⟩

/-- Lines 129-133: fold a hash value into `[0, 2^63)`:
negate if negative, halve once if still at or above `2^63`. -/
def foldHash (v : Int) : Int :=
  let u := if v < 0 then -v else v
  if u ≥ 2 ^ 63 then u / 2 else u

/-- Lines 125-133: the initial UID candidate for a key.  A non-negative
integer key below `2^63` is used verbatim; anything else is hashed and
folded. -/
def uidCandidate (h : PyKey → Int) (key : PyKey) : Int :=
  match key with
  | .kInt n => if 0 ≤ n ∧ n < 2 ^ 63 then n else foldHash (h (.kInt n))
  | .kStr s => foldHash (h (.kStr s))

/-- Lines 137-141, the probing loop
`while uid in uids: uid += inc; if 0 > uid >= 2**63: raise ValueError(...)`.
The guard is transcribed exactly as written in the source: Python chains the
comparison as `0 > uid and uid >= 2**63`.  The `fuel` argument is an
embedding artifact making the loop structurally recursive; every use passes
`uids.length + 1`, which is shown sufficient below (the loop visits strictly
monotone candidates, each consuming a distinct occupied slot). -/
def probeUid (uids : List (Int × PyKey)) (inc : Int) : Nat → Int → Except String Int
  | 0, _ => .error "model fuel exhausted"
  | n + 1, uid =>
    if (alookup uid uids).isSome then
      let uid2 := uid + inc
      if 0 > uid2 ∧ uid2 ≥ 2 ^ 63 then
        .error "Unable to generate an UID"
      else
        probeUid uids inc n uid2
    else
      .ok uid

/-- `_key_to_uid(uids, key)` (lines 121-142): compute the candidate, then
probe forward by `+1` (or by `-1` when the candidate is at or past `2^62`)
until a free slot is found. -/
def keyToUid (h : PyKey → Int) (uids : List (Int × PyKey)) (key : PyKey) :
    Except String Int :=
  if (alookup (uidCandidate h key) uids).isSome then
    probeUid uids (if uidCandidate h key < 2 ^ 62 then 1 else -1)
      (uids.length + 1) (uidCandidate h key)
  else
    .ok (uidCandidate h key)

/-- `get_fbxuid_from_key(key)` (lines 145-154): return the cached UID when
the key was seen, otherwise allocate via `_key_to_uid` and record the pair
in both dicts. -/
def get_fbxuid_from_key (h : PyKey → Int) (s : RegState) (key : PyKey) :
    Except String (Int × RegState) :=
  match alookup key s.keysToUids with
  | some uid => .ok (uid, s)
  | none =>
    match keyToUid h s.uidsToKeys key with
    | .error e => .error e
    | .ok uid => .ok (uid, ⟨dinsert s.keysToUids key uid, dinsert s.uidsToKeys uid key⟩)

/-- A sequence of `get_fbxuid_from_key` calls, returning the UIDs in order
together with the final registry state. -/
def runKeys (h : PyKey → Int) : RegState → List PyKey → Except String (List Int × RegState)
  | s, [] => .ok ([], s)
  | s, k :: ks =>
    match get_fbxuid_from_key h s k with
    | .error e => .error e
    | .ok (u, s1) =>
      match runKeys h s1 ks with
      | .error e => .error e
      | .ok (us, s2) => .ok (u :: us, s2)

/-- Well-formedness of a registry state: both dicts have no duplicate keys
(automatic for Python dicts) and they are mutual inverses.  This is the
invariant claimed for `_keys_to_uids` / `_uids_to_keys`. -/
structure RegInv (s : RegState) : Prop where
  nodupK : (s.keysToUids.map Prod.fst).Nodup
  nodupU : (s.uidsToKeys.map Prod.fst).Nodup
  mutual_inv : ∀ k u, alookup k s.keysToUids = some u ↔ alookup u s.uidsToKeys = some k

/-- The fully occupied UID interval `[a, a + len)`, keyed by the identity
integer keys that produce exactly these UIDs: the registry state reached by
calling `get_fbxuid_from_key(a)`, ..., `get_fbxuid_from_key(a+len-1)`. -/
def intervalUids (a : Int) (len : Nat) : List (Int × PyKey) :=
  (List.range len).map (fun (i : Nat) => (a + (i : Int), PyKey.kInt (a + (i : Int))))

/-- Key-to-UID side of the interval state. -/
def intervalKeys (a : Int) (len : Nat) : List (PyKey × Int) :=
  (List.range len).map (fun (i : Nat) => (PyKey.kInt (a + (i : Int)), a + (i : Int)))

/-! ## Python values and equality

The values the module passes to the property encoders: booleans, integers,
floats (embedded as exact rationals), strings (Python `bytes` and `str` are
both short textual tags here and share one embedding), tuples/`Vector`s
(both iterable, compared elementwise), and `None`. -/

inductive PyVal
  | vB (b : Bool)
  | vI (n : Int)
  | vF (q : Rat)
  | vS (s : String)
  | vTup (l : List PyVal)
  | vNone

mutual

/-- Structural (Lean-level) equality test for `PyVal`. -/
def pvBeq : PyVal → PyVal → Bool
  | .vB a, .vB b => a = b
  | .vI a, .vI b => a = b
  | .vF a, .vF b => a = b
  | .vS a, .vS b => a = b
  | .vTup a, .vTup b => pvBeqL a b
  | .vNone, .vNone => true
  | _, _ => false

/-- Structural equality test for lists of `PyVal`. -/
def pvBeqL : List PyVal → List PyVal → Bool
  | [], [] => true
  | a :: as_, b :: bs => pvBeq a b && pvBeqL as_ bs
  | _, _ => false

end

mutual

theorem pvBeq_iff : ∀ a b : PyVal, pvBeq a b = true ↔ a = b
  | .vB a, .vB b => by simp [pvBeq]
  | .vI a, .vI b => by simp [pvBeq]
  | .vF a, .vF b => by simp [pvBeq]
  | .vS a, .vS b => by simp [pvBeq]
  | .vTup a, .vTup b => by simp [pvBeq, pvBeqL_iff a b]
  | .vNone, .vNone => by simp [pvBeq]
  | .vB _, .vI _ | .vB _, .vF _ | .vB _, .vS _ | .vB _, .vTup _ | .vB _, .vNone
  | .vI _, .vB _ | .vI _, .vF _ | .vI _, .vS _ | .vI _, .vTup _ | .vI _, .vNone
  | .vF _, .vB _ | .vF _, .vI _ | .vF _, .vS _ | .vF _, .vTup _ | .vF _, .vNone
  | .vS _, .vB _ | .vS _, .vI _ | .vS _, .vF _ | .vS _, .vTup _ | .vS _, .vNone
  | .vTup _, .vB _ | .vTup _, .vI _ | .vTup _, .vF _ | .vTup _, .vS _ | .vTup _, .vNone
  | .vNone, .vB _ | .vNone, .vI _ | .vNone, .vF _ | .vNone, .vS _ | .vNone, .vTup _ =>
    by simp [pvBeq]

theorem pvBeqL_iff : ∀ a b : List PyVal, pvBeqL a b = true ↔ a = b
  | [], [] => by simp [pvBeqL]
  | a :: as_, b :: bs => by
    simp [pvBeqL, pvBeq_iff a b, pvBeqL_iff as_ bs]
  | [], _ :: _ => by simp [pvBeqL]
  | _ :: _, [] => by simp [pvBeqL]

end

instance : DecidableEq PyVal := fun a b => decidable_of_iff _ (pvBeq_iff a b)

/-- Numeric view used by Python `==`: `True == 1 == 1.0`. -/
def pyNum : PyVal → Option Rat
  | .vB b => some (if b then 1 else 0)
  | .vI n => some (n : Rat)
  | .vF q => some q
  | _ => none

mutual

/-- Python `==` on the embedded values: numeric kinds compare by value,
strings by content, tuples elementwise, `None` only to itself. -/
def pyEq : PyVal → PyVal → Bool
  | .vTup a, .vTup b => pyEqL a b
  | .vS a, .vS b => a = b
  | .vNone, .vNone => true
  | a, b =>
    match pyNum a, pyNum b with
    | some x, some y => x = y
    | _, _ => false

/-- Elementwise Python `==` on lists (Python tuple equality). -/
def pyEqL : List PyVal → List PyVal → Bool
  | [], [] => true
  | a :: as_, b :: bs => pyEq a b && pyEqL as_ bs
  | _, _ => false

end

/-- Python `tuple(value)`: tuples convert directly, strings yield their
characters, every other value raises `TypeError`. -/
def pyTuple : PyVal → Except String (List PyVal)
  | .vTup l => .ok l
  | .vS s => .ok (s.toList.map (fun c => .vS (String.mk [c])))
  | _ => .error "TypeError: object is not iterable"

/-! ## Element tree model

Modelled from the spec: the `encode_bin.FBXElem` class and its `add_*`
methods are code of this repository that is not under `src/` (only
`export_fbx_bin.py` and `data_types.py` are).  Spec section 4.2 describes an
Element as a named node with an ordered list of typed scalar/array
properties and an ordered list of children, where `addProperty` validates
the value against the closed set of wire kinds and rejects anything else as
a fatal programming error; byte-level packing is an external collaborator
and is not modelled. -/

/-- One typed wire property of an element (spec section 6's closed kind set;
the array kinds carried by the mesh emitter are included for the buffers it
writes). -/
inductive FProp
  | fBool (b : Bool)
  | fInt16 (n : Int)
  | fInt32 (n : Int)
  | fInt64 (n : Int)
  | fFloat64 (q : Rat)
  | fBytes (s : String)
  | fString (s : String)
  | fStringU (s : String)
  | fArrInt32 (l : List Int)
  | fArrFloat64 (l : List Rat)
deriving DecidableEq, Repr

/-- Modelled from the spec: `encode_bin.FBXElem` — name, ordered properties,
ordered children. -/
inductive FBXElem
  | mk (name : String) (props : List FProp) (elems : List FBXElem)

mutual

/-- Structural equality test for `FBXElem`. -/
def feBeq : FBXElem → FBXElem → Bool
  | .mk n1 p1 e1, .mk n2 p2 e2 => n1 = n2 && p1 = p2 && feBeqL e1 e2

/-- Structural equality test for lists of `FBXElem`. -/
def feBeqL : List FBXElem → List FBXElem → Bool
  | [], [] => true
  | a :: as_, b :: bs => feBeq a b && feBeqL as_ bs
  | _, _ => false

end

mutual

theorem feBeq_iff : ∀ a b : FBXElem, feBeq a b = true ↔ a = b
  | .mk n1 p1 e1, .mk n2 p2 e2 => by
    simp [feBeq, feBeqL_iff e1 e2]
    tauto

theorem feBeqL_iff : ∀ a b : List FBXElem, feBeqL a b = true ↔ a = b
  | [], [] => by simp [feBeqL]
  | a :: as_, b :: bs => by
    simp [feBeqL, feBeq_iff a b, feBeqL_iff as_ bs]
  | [], _ :: _ => by simp [feBeqL]
  | _ :: _, [] => by simp [feBeqL]

end

instance : DecidableEq FBXElem := fun a b => decidable_of_iff _ (feBeq_iff a b)

def FBXElem.name : FBXElem → String
  | .mk n _ _ => n

def FBXElem.props : FBXElem → List FProp
  | .mk _ p _ => p

def FBXElem.elems : FBXElem → List FBXElem
  | .mk _ _ e => e

/-- Append one wire property (an `elem.add_*` call). -/
def FBXElem.addProp : FBXElem → FProp → FBXElem
  | .mk n p e, q => .mk n (p ++ [q]) e

/-- Append one child element. -/
def FBXElem.addChild : FBXElem → FBXElem → FBXElem
  | .mk n p e, c => .mk n p (e ++ [c])

/-- `elem_empty` (lines 185-189) viewed functionally: the fresh child
element; attachment to the parent is explicit at each call site. -/
def elem_empty (name : String) : FBXElem := .mk name [] []

/-- `elem_properties` (lines 192-193): the `Properties70` container. -/
def elem_properties : FBXElem := elem_empty "Properties70"

/-- `elem_data_single_*` (lines 196-267): a child holding one scalar or
array property. -/
def elemDataSingle (name : String) (p : FProp) : FBXElem := .mk name [p] []

/-! ## Typed property encoder (lines 275-327) -/

/-- The `add_*` setter names appearing in `FBX_PROPERTIES_DEFINITIONS`. -/
inductive Setter
  | addInt32
  | addInt64
  | addFloat64
  | addStringUnicode
deriving DecidableEq, Repr

/-- Modelled from the spec: applying one `encode_bin` scalar setter to a
Python value.  Spec section 4.2: the value's kind is validated against the
wire kind, anything else is a fatal programming error.  Python `bool` is an
`int`, and an `int` packs as a float64, so those coercions succeed. -/
def applySetter : Setter → PyVal → Except String FProp
  | .addInt32, .vI n => .ok (.fInt32 n)
  | .addInt32, .vB b => .ok (.fInt32 (if b then 1 else 0))
  | .addInt32, _ => .error "TypeError: required argument is not an integer"
  | .addInt64, .vI n => .ok (.fInt64 n)
  | .addInt64, .vB b => .ok (.fInt64 (if b then 1 else 0))
  | .addInt64, _ => .error "TypeError: required argument is not an integer"
  | .addFloat64, .vF q => .ok (.fFloat64 q)
  | .addFloat64, .vI n => .ok (.fFloat64 (n : Rat))
  | .addFloat64, .vB b => .ok (.fFloat64 (if b then 1 else 0))
  | .addFloat64, _ => .error "TypeError: required argument is not a float"
  | .addStringUnicode, .vS s => .ok (.fStringU s)
  | .addStringUnicode, _ => .error "TypeError: required argument is not a string"

/-- One entry of `FBX_PROPERTIES_DEFINITIONS`: the three type-tag strings
followed by the setter list.  The Python tuple's length is
`3 + setters.length`, so the source's `len(ptype) == 4` test is
`setters.length = 1` and `len(ptype) > 4` is `2 ≤ setters.length`. -/
structure PDef where
  t1 : String
  t2 : String
  t3 : String
  setters : List Setter
deriving DecidableEq, Repr

/-- `FBX_PROPERTIES_DEFINITIONS` (lines 278-296), transcribed entry by
entry. -/
def FBX_PROPERTIES_DEFINITIONS : List (String × PDef) :=
  [("p_bool", ⟨"bool", "", "", [.addInt32]⟩),
   ("p_integer", ⟨"int", "Integer", "", [.addInt32]⟩),
   ("p_enum", ⟨"enum", "", "", [.addInt32]⟩),
   ("p_number", ⟨"double", "Number", "", [.addFloat64]⟩),
   ("p_visibility", ⟨"Visibility", "", "A+", [.addFloat64]⟩),
   ("p_fov", ⟨"FieldOfView", "", "A+", [.addFloat64]⟩),
   ("p_fov_x", ⟨"FieldOfViewX", "", "A+", [.addFloat64]⟩),
   ("p_fov_y", ⟨"FieldOfViewY", "", "A+", [.addFloat64]⟩),
   ("p_vector_3d", ⟨"Vector3D", "Vector", "", [.addFloat64, .addFloat64, .addFloat64]⟩),
   ("p_lcl_translation", ⟨"Lcl Translation", "", "A+", [.addFloat64, .addFloat64, .addFloat64]⟩),
   ("p_lcl_rotation", ⟨"Lcl Rotation", "", "A+", [.addFloat64, .addFloat64, .addFloat64]⟩),
   ("p_lcl_scaling", ⟨"Lcl Scaling", "", "A+", [.addFloat64, .addFloat64, .addFloat64]⟩),
   ("p_color_rgb", ⟨"ColorRGB", "Color", "", [.addFloat64, .addFloat64, .addFloat64]⟩),
   ("p_string", ⟨"KString", "", "", [.addStringUnicode]⟩),
   ("p_string_url", ⟨"KString", "XRefUrl", "", [.addStringUnicode]⟩),
   ("p_timestamp", ⟨"KTime", "Time", "", [.addInt64]⟩),
   ("p_object", ⟨"object", "", "", []⟩)]

/-- Sequence `applySetter` over a setter/value zip, in order. -/
def applySetters : List (Setter × PyVal) → Except String (List FProp)
  | [] => .ok []
  | p :: t =>
    match applySetter p.1 p.2 with
    | .error e => .error e
    | .ok f =>
      match applySetters t with
      | .error e => .error e
      | .ok fs => .ok (f :: fs)

/-- `_elem_props_set(elem, ptype, name, value)` (lines 299-308): build the
`P` element — the name string, the three type tags, then either the single
setter applied to `value`, or (for multi-setter kinds) the setters zipped
against the iterated `value`; Python's `zip` silently truncates to the
shorter operand.  A setter-less kind (`p_object`) writes no value at all. -/
def elemPropsSetRaw (pdef : PDef) (name : String) (value : PyVal) :
    Except String FBXElem :=
  let base := [FProp.fString name, .fString pdef.t1, .fString pdef.t2, .fString pdef.t3]
  match pdef.setters with
  | [] => .ok (.mk "P" base [])
  | [st] =>
    match applySetter st value with
    | .error e => .error e
    | .ok f => .ok (.mk "P" (base ++ [f]) [])
  | sts =>
    match pyTuple value with
    | .error e => .error e
    | .ok l =>
      match applySetters (sts.zip l) with
      | .error e => .error e
      | .ok fs => .ok (.mk "P" (base ++ fs) [])

/-- `elem_props_set` (lines 311-313): look the kind up in
`FBX_PROPERTIES_DEFINITIONS` (a `KeyError` for an unknown kind) and defer
to the raw encoder. -/
def elem_props_set (ptypeName name : String) (value : PyVal) :
    Except String FBXElem :=
  match alookup ptypeName FBX_PROPERTIES_DEFINITIONS with
  | none => .error "KeyError"
  | some pdef => elemPropsSetRaw pdef name value

/-- `FBXTemplate` (line 357): the namedtuple
`(type_name, prop_type_name, properties, nbr_users)`; `properties` maps a
property name to its `(default value, kind name)` pair. -/
structure FBXTemplate where
  type_name : String
  prop_type_name : String
  properties : List (String × (PyVal × String))
  nbr_users : Int
deriving DecidableEq

/-- `elem_props_template_set` (lines 316-327): skip the write when the
template records the same `(value, kind)` for this name — compared directly
for single-setter kinds, and after `tuple(...)` conversion of both operands
for multi-setter kinds (where a non-iterable operand raises `TypeError`).
Returns the list of appended properties: `[]` or one `P` element. -/
def elemPropsTemplateSet (template : FBXTemplate) (ptypeName name : String)
    (value : PyVal) : Except String (List FBXElem) :=
  match alookup ptypeName FBX_PROPERTIES_DEFINITIONS with
  | none => .error "KeyError"
  | some pdef =>
    match alookup name template.properties with
    | none =>
      match elemPropsSetRaw pdef name value with
      | .error e => .error e
      | .ok p => .ok [p]
    | some (tmplVal, tmplPtype) =>
      if pdef.setters.length = 1 then
        if pyEq tmplVal value && tmplPtype = ptypeName then .ok []
        else
          match elemPropsSetRaw pdef name value with
          | .error e => .error e
          | .ok p => .ok [p]
      else if 2 ≤ pdef.setters.length then
        match pyTuple tmplVal with
        | .error e => .error e
        | .ok l1 =>
          match pyTuple value with
          | .error e => .error e
          | .ok l2 =>
            if pyEqL l1 l2 && tmplPtype = ptypeName then .ok []
            else
              match elemPropsSetRaw pdef name value with
              | .error e => .error e
              | .ok p => .ok [p]
      else
        match elemPropsSetRaw pdef name value with
        | .error e => .error e
        | .ok p => .ok [p]

/-! ## Template tables (lines 354-593)

Python float literals are embedded as the equal rational values; the value
of the float `math.pi` is itself an exact rational. -/

/-- The exact rational value of the IEEE-754 double `math.pi`. -/
def piRat : Rat := 884279719003555 / 281474976710656

/-- A 3-vector / color default: a tuple of three floats (Python tuples and
`mathutils.Vector`s are both iterable and compare elementwise). -/
def v3 (x y z : Rat) : PyVal := .vTup [.vF x, .vF y, .vF z]

/-- Pack a rational triple as a Python 3-tuple value. -/
def v3p (t : Rat × Rat × Rat) : PyVal := v3 t.1 t.2.1 t.2.2

/-- `props.update(override_defaults)` (performed by every template builder
when overrides are given). -/
def tmplUpdate (props : List (String × (PyVal × String)))
    (ov : Option (List (String × (PyVal × String)))) :
    List (String × (PyVal × String)) :=
  match ov with
  | none => props
  | some l => l.foldl (fun m p => dinsert m p.1 p.2) props

/-- `fbx_template_def_globalsettings` (lines 371-375). -/
def fbx_template_def_globalsettings
    (ov : Option (List (String × (PyVal × String)))) (nbr_users : Int) :
    FBXTemplate :=
  ⟨"GlobalSettings", "", tmplUpdate [] ov, nbr_users⟩

/-- `fbx_template_def_model` (lines 378-454). -/
def fbx_template_def_model (gscale : Rat)
    (ov : Option (List (String × (PyVal × String)))) (nbr_users : Int) :
    FBXTemplate :=
  ⟨"Model", "KFbxNode", tmplUpdate
    [("QuaternionInterpolate", (.vB false, "p_bool")),
     ("RotationOffset", (v3 0 0 0, "p_vector_3d")),
     ("RotationPivot", (v3 0 0 0, "p_vector_3d")),
     ("ScalingOffset", (v3 0 0 0, "p_vector_3d")),
     ("ScalingPivot", (v3 0 0 0, "p_vector_3d")),
     ("TranslationActive", (.vB false, "p_bool")),
     ("TranslationMin", (v3 0 0 0, "p_vector_3d")),
     ("TranslationMax", (v3 0 0 0, "p_vector_3d")),
     ("TranslationMinX", (.vB false, "p_bool")),
     ("TranslationMinY", (.vB false, "p_bool")),
     ("TranslationMinZ", (.vB false, "p_bool")),
     ("TranslationMaxX", (.vB false, "p_bool")),
     ("TranslationMaxY", (.vB false, "p_bool")),
     ("TranslationMaxZ", (.vB false, "p_bool")),
     ("RotationOrder", (.vI 0, "p_enum")),
     ("RotationSpaceForLimitOnly", (.vB false, "p_bool")),
     ("RotationStiffnessX", (.vF 0, "p_number")),
     ("RotationStiffnessY", (.vF 0, "p_number")),
     ("RotationStiffnessZ", (.vF 0, "p_number")),
     ("AxisLen", (.vF 10, "p_number")),
     ("PreRotation", (v3 0 0 0, "p_vector_3d")),
     ("PostRotation", (v3 0 0 0, "p_vector_3d")),
     ("RotationActive", (.vB false, "p_bool")),
     ("RotationMin", (v3 0 0 0, "p_vector_3d")),
     ("RotationMax", (v3 0 0 0, "p_vector_3d")),
     ("RotationMinX", (.vB false, "p_bool")),
     ("RotationMinY", (.vB false, "p_bool")),
     ("RotationMinZ", (.vB false, "p_bool")),
     ("RotationMaxX", (.vB false, "p_bool")),
     ("RotationMaxY", (.vB false, "p_bool")),
     ("RotationMaxZ", (.vB false, "p_bool")),
     ("InheritType", (.vI 0, "p_enum")),
     ("ScalingActive", (.vB false, "p_bool")),
     ("ScalingMin", (v3 gscale gscale gscale, "p_vector_3d")),
     ("ScalingMax", (v3 gscale gscale gscale, "p_vector_3d")),
     ("ScalingMinX", (.vB false, "p_bool")),
     ("ScalingMinY", (.vB false, "p_bool")),
     ("ScalingMinZ", (.vB false, "p_bool")),
     ("ScalingMaxX", (.vB false, "p_bool")),
     ("ScalingMaxY", (.vB false, "p_bool")),
     ("ScalingMaxZ", (.vB false, "p_bool")),
     ("GeometricTranslation", (v3 0 0 0, "p_vector_3d")),
     ("GeometricRotation", (v3 0 0 0, "p_vector_3d")),
     ("GeometricScaling", (v3 gscale gscale gscale, "p_vector_3d")),
     ("MinDampRangeX", (.vF 0, "p_number")),
     ("MinDampRangeY", (.vF 0, "p_number")),
     ("MinDampRangeZ", (.vF 0, "p_number")),
     ("MaxDampRangeX", (.vF 0, "p_number")),
     ("MaxDampRangeY", (.vF 0, "p_number")),
     ("MaxDampRangeZ", (.vF 0, "p_number")),
     ("MinDampStrengthX", (.vF 0, "p_number")),
     ("MinDampStrengthY", (.vF 0, "p_number")),
     ("MinDampStrengthZ", (.vF 0, "p_number")),
     ("MaxDampStrengthX", (.vF 0, "p_number")),
     ("MaxDampStrengthY", (.vF 0, "p_number")),
     ("MaxDampStrengthZ", (.vF 0, "p_number")),
     ("PreferedAngleX", (.vF 0, "p_number")),
     ("PreferedAngleY", (.vF 0, "p_number")),
     ("PreferedAngleZ", (.vF 0, "p_number")),
     ("LookAtProperty", (.vNone, "p_object")),
     ("UpVectorProperty", (.vNone, "p_object")),
     ("Show", (.vB true, "p_bool")),
     ("NegativePercentShapeSupport", (.vB true, "p_bool")),
     ("DefaultAttributeIndex", (.vI (-1), "p_integer")),
     ("Freeze", (.vB false, "p_bool")),
     ("LODBox", (.vB false, "p_bool")),
     ("Lcl Translation", (v3 0 0 0, "p_lcl_translation")),
     ("Lcl Rotation", (v3 0 0 0, "p_lcl_rotation")),
     ("Lcl Scaling", (v3 gscale gscale gscale, "p_lcl_scaling")),
     ("Visibility", (.vF 1, "p_visibility"))] ov, nbr_users⟩

/-- `fbx_template_def_light` (lines 457-472). -/
def fbx_template_def_light (gscale : Rat)
    (ov : Option (List (String × (PyVal × String)))) (nbr_users : Int) :
    FBXTemplate :=
  ⟨"NodeAttribute", "KFbxLight", tmplUpdate
    [("LightType", (.vI 0, "p_enum")),
     ("CastLight", (.vB true, "p_bool")),
     ("Color", (v3 1 1 1, "p_color_rgb")),
     ("Intensity", (.vF 100, "p_number")),
     ("DecayType", (.vI 2, "p_enum")),
     ("DecayStart", (.vF (30 * gscale), "p_number")),
     ("CastShadows", (.vB true, "p_bool")),
     ("ShadowColor", (v3 0 0 0, "p_color_rgb")),
     ("AreaLightShape", (.vI 0, "p_enum"))] ov, nbr_users⟩

/-- `fbx_template_def_camera` (lines 475-479): no defaults yet. -/
def fbx_template_def_camera
    (ov : Option (List (String × (PyVal × String)))) (nbr_users : Int) :
    FBXTemplate :=
  ⟨"NodeAttribute", "KFbxCamera", tmplUpdate [] ov, nbr_users⟩

/-- `fbx_template_def_cameraswitcher` (lines 482-489). -/
def fbx_template_def_cameraswitcher
    (ov : Option (List (String × (PyVal × String)))) (nbr_users : Int) :
    FBXTemplate :=
  ⟨"NodeAttribute", "KFbxCameraSwitcher", tmplUpdate
    [("Color", (v3 0.8 0.8 0.8, "p_color_rgb")),
     ("Camera Index", (.vI 1, "p_integer"))] ov, nbr_users⟩

/-- `fbx_template_def_geometry` (lines 492-500). -/
def fbx_template_def_geometry
    (ov : Option (List (String × (PyVal × String)))) (nbr_users : Int) :
    FBXTemplate :=
  ⟨"Geometry", "KFbxMesh", tmplUpdate
    [("Color", (v3 0.8 0.8 0.8, "p_color_rgb")),
     ("BBoxMin", (v3 0 0 0, "p_vector_3d")),
     ("BBoxMax", (v3 0 0 0, "p_vector_3d"))] ov, nbr_users⟩

/-- `fbx_template_def_material` (lines 503-532). -/
def fbx_template_def_material
    (ov : Option (List (String × (PyVal × String)))) (nbr_users : Int) :
    FBXTemplate :=
  ⟨"Material", "KFbxSurfacePhong", tmplUpdate
    [("ShadingModel", (.vS "phong", "p_string")),
     ("MultiLayer", (.vB false, "p_bool")),
     ("EmissiveColor", (v3 0.8 0.8 0.8, "p_color_rgb")),
     ("EmissiveFactor", (.vF 0, "p_number")),
     ("AmbientColor", (v3 0 0 0, "p_color_rgb")),
     ("AmbientFactor", (.vF 1, "p_number")),
     ("DiffuseColor", (v3 0.8 0.8 0.8, "p_color_rgb")),
     ("DiffuseFactor", (.vF 0.8, "p_number")),
     ("TransparentColor", (v3 0.8 0.8 0.8, "p_color_rgb")),
     ("TransparencyFactor", (.vF 0, "p_number")),
     ("NormalMap", (v3 0 0 0, "p_vector_3d")),
     ("Bump", (v3 0 0 0, "p_vector_3d")),
     ("BumpFactor", (.vF 1, "p_number")),
     ("DisplacementColor", (v3 0 0 0, "p_color_rgb")),
     ("DisplacementFactor", (.vF 0, "p_number")),
     ("SpecularColor", (v3 1 1 1, "p_color_rgb")),
     ("SpecularFactor", (.vF (0.5 / 2), "p_number")),
     ("Shininess", (.vF ((50 - 1) / 5.10), "p_number")),
     ("ReflectionColor", (v3 1 1 1, "p_color_rgb")),
     ("RefectionFactor", (.vF 0, "p_number"))] ov, nbr_users⟩

/-- `fbx_template_def_texture_file` (lines 535-559). -/
def fbx_template_def_texture_file
    (ov : Option (List (String × (PyVal × String)))) (nbr_users : Int) :
    FBXTemplate :=
  ⟨"Texture", "KFbxFileTexture", tmplUpdate
    [("TextureTypeUse", (.vI 0, "p_enum")),
     ("AlphaSource", (.vI 2, "p_enum")),
     ("Texture alpha", (.vF 1, "p_number")),
     ("PremultiplyAlpha", (.vB false, "p_bool")),
     ("CurrentTextureBlendMode", (.vI 0, "p_enum")),
     ("CurrentMappingType", (.vI 1, "p_enum")),
     ("WrapModeU", (.vI 0, "p_enum")),
     ("WrapModeV", (.vI 0, "p_enum")),
     ("UVSwap", (.vB false, "p_bool")),
     ("Translation", (v3 0 0 0, "p_vector_3d")),
     ("Rotation", (v3 0 0 0, "p_vector_3d")),
     ("Scaling", (v3 1 1 1, "p_vector_3d")),
     ("TextureRotationPivot", (v3 0 0 0, "p_vector_3d")),
     ("TextureScalingPivot", (v3 0 0 0, "p_vector_3d")),
     ("UseMaterial", (.vB true, "p_bool")),
     ("UseMipMap", (.vB false, "p_bool"))] ov, nbr_users⟩

/-- `fbx_template_def_video` (lines 562-586); `FrameRate` depends on the
scene's render settings. -/
def fbx_template_def_video (fps fps_base : Rat)
    (ov : Option (List (String × (PyVal × String)))) (nbr_users : Int) :
    FBXTemplate :=
  ⟨"Video", "KFbxVideo", tmplUpdate
    [("Width", (.vI 0, "p_integer")),
     ("Height", (.vI 0, "p_integer")),
     ("Path", (.vS "", "p_string_url")),
     ("AccessMode", (.vI 0, "p_enum")),
     ("StartFrame", (.vI 0, "p_integer")),
     ("StopFrame", (.vI 0, "p_integer")),
     ("Offset", (.vI 0, "p_timestamp")),
     ("PlaySpeed", (.vF 1, "p_number")),
     ("FreeRunning", (.vB false, "p_bool")),
     ("Loop", (.vB false, "p_bool")),
     ("InterlaceMode", (.vI 0, "p_enum")),
     ("ImageSequence", (.vB false, "p_bool")),
     ("ImageSequenceOffset", (.vI 0, "p_integer")),
     ("FrameRate", (.vF (fps / fps_base), "p_number")),
     ("LastFrame", (.vI 0, "p_integer"))] ov, nbr_users⟩

/-- `fbx_template_def_pose` (lines 589-593): empty defaults, unused by the
pipeline. -/
def fbx_template_def_pose
    (ov : Option (List (String × (PyVal × String)))) (nbr_users : Int) :
    FBXTemplate :=
  ⟨"Pose", "", tmplUpdate [] ov, nbr_users⟩

/-- `fbx_template_generate` (lines 360-368): an `ObjectType` element
carrying the user count and, when there are default properties, a
`PropertyTemplate` child whose `Properties70` block is written with the
plain (non-template-aware) property encoder. -/
def fbx_template_generate (t : FBXTemplate) : Except String FBXElem :=
  let countE := elemDataSingle "Count" (.fInt32 t.nbr_users)
  if t.properties = [] then
    .ok (.mk "ObjectType" [.fString t.type_name] [countE])
  else
    match t.properties.mapM (fun p => elem_props_set p.2.2 p.1 p.2.1) with
    | .error e => .error e
    | .ok ps =>
      .ok (.mk "ObjectType" [.fString t.type_name]
        [countE, .mk "PropertyTemplate" [.fString t.prop_type_name]
          [.mk "Properties70" [] ps]])

/-! ## Connection elements (lines 330-351) -/

/-- `elem_connection` (lines 332-337): a `C` child holding the connection
kind, the source UID, the destination UID and, for `OP` edges, the
destination property name. -/
def elem_connection (ctype : String) (uidSrc uidDst : Int)
    (propDst : Option String) : FBXElem :=
  match propDst with
  | none => .mk "C" [.fString ctype, .fInt64 uidSrc, .fInt64 uidDst] []
  | some p => .mk "C" [.fString ctype, .fInt64 uidSrc, .fInt64 uidDst, .fString p] []

/-- `elem_connection_oo` (lines 340-344). -/
def elem_connection_oo (uidSrc uidDst : Int) : FBXElem :=
  elem_connection "OO" uidSrc uidDst none

/-- `elem_connection_op` (lines 347-351). -/
def elem_connection_op (uidSrc uidDst : Int) (propDst : String) : FBXElem :=
  elem_connection "OP" uidSrc uidDst (some propDst)

/-! ## Blender scene model

The read-only scene source is an external collaborator (spec section 6):
objects with a discriminated kind, a name, a nullable parent reference and
kind-specific data.  Blender guarantees unique datablock names per type, so
structural record equality coincides with Python object identity for the
dict keys used below.  Enumerated string fields with a closed value set
(`obj.type`, `lamp.type`, `lamp.falloff_type`) are embedded as enums. -/

inductive ObjType
  | EMPTY | CAMERA | LAMP | MESH | OTHER
deriving DecidableEq, Repr

inductive LampType
  | POINT | SUN | SPOT | HEMI | AREA
deriving DecidableEq, Repr

inductive FalloffType
  | CONSTANT | INVERSE_LINEAR | INVERSE_SQUARE | CUSTOM_CURVE
  | LINEAR_QUADRATIC_WEIGHTED
deriving DecidableEq, Repr

/-- The lamp datablock fields read by the lamp emitter. -/
structure BlLamp where
  name : String
  ltype : LampType
  falloff_type : FalloffType
  use_only_shadow : Bool
  use_specular : Bool
  use_diffuse : Bool
  shadow_method : String
  shadow_color : Rat × Rat × Rat
  color : Rat × Rat × Rat
  energy : Rat
  distance : Rat
  spot_size : Rat
  spot_blend : Rat
deriving DecidableEq

/-- The camera datablock fields read by the camera emitter. -/
structure BlCamera where
  name : String
  sensor_width : Rat
  sensor_height : Rat
  shift_x : Rat
  shift_y : Rat
  angle_x : Rat
  angle_y : Rat
  lens : Rat
  clip_start : Rat
  clip_end : Rat
deriving DecidableEq

/-- The mesh datablock: the flat buffers `foreach_get` extracts. -/
structure BlMesh where
  name : String
  co : List Rat
  loop_vertex_index : List Int
  polygon_loop_start : List Nat
deriving DecidableEq

/-- The material fields read by the collector and the material emitter. -/
structure BlMaterial where
  name : String
  mtype : String
  diffuse_shader : String
  use_nodes : Bool
  specular_shader : String
  diffuse_color : Rat × Rat × Rat
  emit_ : Rat
  ambient : Rat
  diffuse_intensity : Rat
  alpha : Rat
  use_transparency : Bool
  specular_color : Rat × Rat × Rat
  specular_intensity : Rat
  specular_hardness : Rat
  mirror_color : Rat × Rat × Rat
deriving DecidableEq

/-- Texture slot datablock.  Texture collection is unreachable in the module
(see `fbx_data_from_scene` below), so only the identity is modelled. -/
structure BlTex where
  name : String
deriving DecidableEq

/-- Image datablock, likewise only an identity. -/
structure BlImg where
  name : String
deriving DecidableEq

/-- World datablock fields. -/
structure BlWorld where
  name : String
  ambient_color : Rat × Rat × Rat
deriving DecidableEq

/-- Render settings fields. -/
structure BlRender where
  resolution_x : Int
  resolution_y : Int
  fps : Rat
  fps_base : Rat
deriving DecidableEq

/-- The kind-specific datablock carried by an object (`obj.data`). -/
inductive BlData
  | dLamp (l : BlLamp)
  | dCamera (c : BlCamera)
  | dMesh (m : BlMesh)
  | dNone
deriving DecidableEq

/-- A scene object.  `oid` stands for Python object identity; `parent`
holds the parent object's `oid` when `obj.parent` is not `None`. -/
structure BObject where
  oid : Nat
  name : String
  otype : ObjType
  odata : BlData
  parent : Option Nat
  material_slots : List BlMaterial
deriving DecidableEq

/-- A scene. -/
structure BlScene where
  name : String
  objects : List BObject
  world : BlWorld
  render : BlRender
deriving DecidableEq

/-- The subset of `FBXSettings` fields the modelled core reads:
`global_scale` (derived from the global matrix) and the object-class
filter. -/
structure FBXSettingsM where
  global_scale : Rat
  object_types : List ObjType
deriving DecidableEq

/-! ## Blender-specific key generators (lines 166-179) -/

/-- `get_blenderID_key(bid)` (lines 167-168): `"B" + rna_type.name + "::" + name`. -/
def get_blenderID_key (rna name : String) : String := "B" ++ rna ++ "::" ++ name

def blenderKeyObject (o : BObject) : String := get_blenderID_key "Object" o.name

def blenderKeyLamp (l : BlLamp) : String := get_blenderID_key "Lamp" l.name

def blenderKeyMesh (m : BlMesh) : String := get_blenderID_key "Mesh" m.name

def blenderKeyMaterial (m : BlMaterial) : String := get_blenderID_key "Material" m.name

def blenderKeyWorld (w : BlWorld) : String := get_blenderID_key "World" w.name

/-- `get_blender_camera_keys(cam)` (lines 171-174): the camera data key plus
the two synthetic camera-switcher keys. -/
def get_blender_camera_keys (c : BlCamera) : String × String × String :=
  let key := get_blenderID_key "Camera" c.name
  (key, key ++ "_switcher", key ++ "_switcher_object")

/-! ## Scene dataset (`FBXData`, lines 1186-1191) -/

/-- The `FBXData` namedtuple: the collected dataset handed to every
emitter. -/
structure FBXData where
  templates : List (String × FBXTemplate)
  templates_users : Int
  settings : FBXSettingsM
  scene : BlScene
  objects : List (BObject × String)
  data_lamps : List (BlLamp × String)
  data_cameras : List (BObject × (String × String × String))
  data_meshes : List (BlMesh × String)
  data_world : List (BlWorld × String)
  data_materials : List (BlMaterial × (String × List BObject))
  data_textures : List (BlTex × (String × List (BlMaterial × List String)))
  data_videos : List (BlImg × (String × List BlTex))
deriving DecidableEq

/-- The `objects` dict comprehension (line 1228). -/
def collectObjects (st : FBXSettingsM) (sc : BlScene) : List (BObject × String) :=
  sc.objects.foldl
    (fun m o => if o.otype ∈ st.object_types then dinsert m o (blenderKeyObject o) else m) []

/-- The `data_lamps` dict comprehension (line 1229); a LAMP-typed object
carries lamp data in Blender, the other constructors are unreachable. -/
def collectLamps (objects : List (BObject × String)) : List (BlLamp × String) :=
  objects.foldl
    (fun m p =>
      if p.1.otype = .LAMP then
        match p.1.odata with
        | .dLamp l => dinsert m l (blenderKeyLamp l)
        | _ => m
      else m) []

/-- The `data_cameras` dict comprehension (line 1231): keyed by the camera
object, valued by the three keys derived from its camera data. -/
def collectCameras (objects : List (BObject × String)) :
    List (BObject × (String × String × String)) :=
  objects.foldl
    (fun m p =>
      if p.1.otype = .CAMERA then
        match p.1.odata with
        | .dCamera c => dinsert m p.1 (get_blender_camera_keys c)
        | _ => m
      else m) []

/-- The `data_meshes` dict comprehension (line 1232). -/
def collectMeshes (objects : List (BObject × String)) : List (BlMesh × String) :=
  objects.foldl
    (fun m p =>
      if p.1.otype = .MESH then
        match p.1.odata with
        | .dMesh me => dinsert m me (blenderKeyMesh me)
        | _ => m
      else m) []

/-- The `data_materials` loop (lines 1237-1248): keep only plain-surface
Lambert materials without node trees; a repeated material accumulates the
using object in its list. -/
def collectMaterials (objects : List (BObject × String)) :
    List (BlMaterial × (String × List BObject)) :=
  objects.foldl
    (fun m p =>
      p.1.material_slots.foldl
        (fun m2 mat =>
          if mat.mtype = "SURFACE" ∧ mat.diffuse_shader = "LAMBERT" ∧ ¬ mat.use_nodes then
            match alookup mat m2 with
            | some kv => dinsert m2 mat (kv.1, kv.2 ++ [p.1])
            | none => dinsert m2 mat (blenderKeyMaterial mat, [p.1])
          else m2) m) []

/-- `fbx_data_from_scene` (lines 1216-1316).  The texture loop
(lines 1255-1278) iterates `material.texture_slots` where `material` is an
undefined name, so the call raises `NameError` as soon as `data_materials`
is non-empty; `data_textures` and `data_videos` can therefore never be
populated.  Template construction and the declared-total computation
(`templates_users = sum of nbr_users`) follow lines 1222-1316. -/
def fbx_data_from_scene (st : FBXSettingsM) (sc : BlScene) :
    Except String FBXData :=
  let objects := collectObjects st sc
  let data_lamps := collectLamps objects
  let data_cameras := collectCameras objects
  let data_meshes := collectMeshes objects
  let data_world := dinsert ([] : List (BlWorld × String)) sc.world (blenderKeyWorld sc.world)
  let data_materials := collectMaterials objects
  if data_materials ≠ [] then
    .error "NameError: name material is not defined"
  else
    let data_textures : List (BlTex × (String × List (BlMaterial × List String))) := []
    let data_videos : List (BlImg × (String × List BlTex)) := []
    let t1 := [("GlobalSettings", fbx_template_def_globalsettings none 1)]
    let t2 :=
      if objects ≠ [] then
        dinsert t1 "Model"
          (fbx_template_def_model st.global_scale none
            ((objects.length : Int) + (data_cameras.length : Int)))
      else t1
    let t3 :=
      if data_lamps ≠ [] then
        dinsert t2 "Light"
          (fbx_template_def_light st.global_scale none (data_lamps.length : Int))
      else t2
    let t4 :=
      if data_cameras ≠ [] then
        dinsert
          (dinsert t3 "Camera"
            (fbx_template_def_camera none (data_cameras.length : Int)))
          "CameraSwitcher"
          (fbx_template_def_cameraswitcher none (data_cameras.length : Int))
      else t3
    let t5 :=
      if data_meshes ≠ [] then
        dinsert t4 "Geometry"
          (fbx_template_def_geometry none (data_meshes.length : Int))
      else t4
    let t6 :=
      if data_materials ≠ [] then
        dinsert t5 "Material"
          (fbx_template_def_material none (data_materials.length : Int))
      else t5
    let t7 :=
      if data_textures ≠ [] then
        dinsert t6 "TextureFile"
          (fbx_template_def_texture_file none (data_textures.length : Int))
      else t6
    let t8 :=
      if data_videos ≠ [] then
        dinsert t7 "Video"
          (fbx_template_def_video sc.render.fps sc.render.fps_base none
            (data_videos.length : Int))
      else t7
    let templates_users := (t8.map (fun p => p.2.nbr_users)).sum
    .ok ⟨t8, templates_users, st, sc, objects, data_lamps, data_cameras, data_meshes,
      data_world, data_materials, data_textures, data_videos⟩

/-! ## Emission monad

The module keeps the UID registry in module-level globals; the emitters
below thread that state explicitly: `EmitM α` is exactly
`RegState → Except String (α × RegState)`. -/

abbrev EmitM (α : Type) := StateT RegState (Except String) α

/-- Lift a pure `Except` computation (no registry access). -/
def liftE {α : Type} (e : Except String α) : EmitM α :=
  fun s => e.map (fun a => (a, s))

/-- A `get_fbxuid_from_key` call inside an emitter. -/
def getUidM (h : PyKey → Int) (k : PyKey) : EmitM Int :=
  fun s => get_fbxuid_from_key h s k

/-- Python `d[k]`: a failed lookup raises `KeyError`. -/
def optE {α : Type} (o : Option α) (msg : String) : Except String α :=
  match o with
  | some a => .ok a
  | none => .error msg

/-! ## External math oracles

Spec section 1 places unit/axis conversion math outside the core:
`mathutils` matrix decomposition and rotation products (`object_tx`,
lines 598-623) are kind-specific float math supplied by a collaborator, and
the mesh layer blocks (normals/smoothing/color/UV layers, lines 810-961)
additionally depend on Python `set` iteration order.  Both are therefore
parameters of the embedding. -/

/-- The values `object_tx` returns for an object (after the lamp/camera
rotation fix-ups): location, Euler rotation, scale, and the camera's
derived up/look-at vectors (`matrix_rot * (0,1,0)`, `matrix_rot * (0,0,-1)`,
lines 716-717). -/
structure TxData where
  loc : Rat × Rat × Rat
  rot : Rat × Rat × Rat
  scale : Rat × Rat × Rat
  up : Rat × Rat × Rat
  lookAt : Rat × Rat × Rat
deriving DecidableEq

/-- The external-math parameters of the emitters. -/
structure Oracles where
  objectTx : BObject → TxData
  meshLayers : BlMesh → List FBXElem

/-- `UNITS` (lines 90-99); the radian entry is `math.pi * 2.0`. -/
def UNITS : List (String × Rat) :=
  [("meter", 1), ("kilometer", 0.001), ("millimeter", 1000),
   ("foot", 1 / 0.3048), ("inch", 1 / 0.0254),
   ("turn", 1), ("degree", 360), ("radian", piRat * 2)]

/-- `units_convert` (lines 101-107) on one scalar:
`val * (UNITS[u_to] / UNITS[u_from])`.  Exact rational arithmetic stands in
for float arithmetic; both unit names are valid at every call site. -/
def units_convert (v : Rat) (u_from u_to : String) : Rat :=
  v * (((alookup u_to UNITS).getD 1) / ((alookup u_from UNITS).getD 1))

/-- `math.degrees`, with the float `math.pi` as an exact rational. -/
def mathDegrees (q : Rat) : Rat := q * 180 / piRat

/-- `fbx_name_class` (lines 643-644): join name and class with the
`\x00\x01` separator. -/
def fbx_name_class (name cls : String) : String := name ++ "\x00\x01" ++ cls

/-- `FBX_LIGHT_TYPES` (lines 62-68). -/
def fbxLightType : LampType → Int
  | .POINT => 0
  | .SUN => 1
  | .SPOT => 2
  | .HEMI => 1
  | .AREA => 3

/-- `FBX_LIGHT_DECAY_TYPES` (lines 69-75). -/
def fbxLightDecayType : FalloffType → Int
  | .CONSTANT => 0
  | .INVERSE_LINEAR => 1
  | .INVERSE_SQUARE => 2
  | .CUSTOM_CURVE => 2
  | .LINEAR_QUADRATIC_WEIGHTED => 2

/-! ## Data-block emitters (lines 647-1176) -/

/-- `fbx_data_lamp_elements` (lines 647-685): the single `NodeAttribute`
data block appended under `Objects` for one lamp datablock. -/
def fbx_data_lamp_elements (h : PyKey → Int) (lamp : BlLamp) (data : FBXData) :
    EmitM FBXElem := do
  let gscale := data.settings.global_scale
  let lampKey ← liftE (optE (alookup lamp data.data_lamps) "KeyError: data_lamps")
  let do_light :=
    if lamp.ltype = .HEMI then true
    else (¬ lamp.use_only_shadow ∧ (lamp.use_specular ∨ lamp.use_diffuse) : Bool)
  let decay_type :=
    if lamp.ltype = .HEMI ∨ lamp.ltype = .SUN then fbxLightDecayType .CONSTANT
    else fbxLightDecayType lamp.falloff_type
  let do_shadow :=
    if lamp.ltype = .HEMI then false
    else (lamp.shadow_method ≠ "NOSHADOW" : Bool)
  let shadow_color := if lamp.ltype = .HEMI then ((0, 0, 0) : Rat × Rat × Rat) else lamp.shadow_color
  let uid ← getUidM h (.kStr lampKey)
  let tmpl ← liftE (optE (alookup "Light" data.templates) "KeyError: templates")
  let ps1 ← liftE (elemPropsTemplateSet tmpl "p_enum" "LightType" (.vI (fbxLightType lamp.ltype)))
  let ps2 ← liftE (elemPropsTemplateSet tmpl "p_bool" "CastLight" (.vB do_light))
  let ps3 ← liftE (elemPropsTemplateSet tmpl "p_color_rgb" "Color" (v3p lamp.color))
  let ps4 ← liftE (elemPropsTemplateSet tmpl "p_number" "Intensity" (.vF (lamp.energy * 100)))
  let ps5 ← liftE (elemPropsTemplateSet tmpl "p_enum" "DecayType" (.vI decay_type))
  let ps6 ← liftE (elemPropsTemplateSet tmpl "p_number" "DecayStart" (.vF (lamp.distance * gscale)))
  let ps7 ← liftE (elemPropsTemplateSet tmpl "p_bool" "CastShadows" (.vB do_shadow))
  let ps8 ← liftE (elemPropsTemplateSet tmpl "p_color_rgb" "ShadowColor" (v3p shadow_color))
  let psSpot ←
    if lamp.ltype = .SPOT then do
      let pa ← liftE (elemPropsTemplateSet tmpl "p_number" "OuterAngle"
        (.vF (mathDegrees lamp.spot_size)))
      let pb ← liftE (elemPropsTemplateSet tmpl "p_number" "InnerAngle"
        (.vF (mathDegrees (lamp.spot_size * (1 - lamp.spot_blend)))))
      pure (pa ++ pb)
    else pure []
  pure (.mk "NodeAttribute"
    [.fInt64 uid, .fString (fbx_name_class lamp.name "NodeAttribute"), .fString "Light"]
    [elemDataSingle "GeometryVersion" (.fInt32 124),
     .mk "Properties70" [] (ps1 ++ ps2 ++ ps3 ++ ps4 ++ ps5 ++ ps6 ++ ps7 ++ ps8 ++ psSpot)])

/-- `fbx_data_camera_elements` (lines 688-773): the camera-switcher
`NodeAttribute` followed by the camera `NodeAttribute`, in emission
order. -/
def fbx_data_camera_elements (h : PyKey → Int) (orc : Oracles) (camObj : BObject)
    (data : FBXData) : EmitM (FBXElem × FBXElem) := do
  let gscale := data.settings.global_scale
  let cam ← liftE (optE
    (match camObj.odata with | .dCamera c => some c | _ => none) "AttributeError: camera data")
  let keys ← liftE (optE (alookup camObj data.data_cameras) "KeyError: data_cameras")
  let (camKey, camSwitcherKey, _camSwitcherObjectKey) := keys
  -- camera switcher data block (lines 699-711)
  let uidSw ← getUidM h (.kStr camSwitcherKey)
  let tmplSw ← liftE (optE (alookup "CameraSwitcher" data.templates) "KeyError: templates")
  let swPs ← liftE (elemPropsTemplateSet tmplSw "p_integer" "Camera Index" (.vI 100))
  let camSwitcher := FBXElem.mk "NodeAttribute"
    [.fInt64 uidSw, .fString (fbx_name_class (cam.name ++ "_switcher") "NodeAttribute"),
     .fString "CameraSwitcher"]
    [.mk "Properties70" [] swPs,
     elemDataSingle "Version" (.fInt32 101),
     elemDataSingle "Name" (.fStringU (cam.name ++ " switcher")),
     elemDataSingle "CameraID" (.fInt32 100),
     elemDataSingle "CameraName" (.fInt32 100),
     elem_empty "CameraIndexName"]
  -- the camera itself (lines 713-773)
  let tx := orc.objectTx camObj
  let width : Rat := (data.scene.render.resolution_x : Rat)
  let height : Rat := (data.scene.render.resolution_y : Rat)
  let aspect := width / height
  let filmwidth := units_convert cam.sensor_width "millimeter" "inch"
  let filmheight := units_convert cam.sensor_height "millimeter" "inch"
  let filmaspect := filmwidth / filmheight
  let offsetx := filmwidth * cam.shift_x
  let offsety := filmaspect * filmheight * cam.shift_y
  let uid ← getUidM h (.kStr camKey)
  let tmpl ← liftE (optE (alookup "Camera" data.templates) "KeyError: templates")
  let p01 ← liftE (elemPropsTemplateSet tmpl "p_vector_3d" "Position" (v3p tx.loc))
  let p02 ← liftE (elemPropsTemplateSet tmpl "p_vector_3d" "UpVector" (v3p tx.up))
  let p03 ← liftE (elemPropsTemplateSet tmpl "p_vector_3d" "InterestPosition" (v3p tx.lookAt))
  let p04 ← liftE (elemPropsTemplateSet tmpl "p_color_rgb" "BackgroundColor" (v3 0 0 0))
  let p05 ← liftE (elemPropsTemplateSet tmpl "p_bool" "DisplayTurnTableIcon" (.vB true))
  let p06 ← liftE (elemPropsTemplateSet tmpl "p_number" "FilmWidth" (.vF filmwidth))
  let p07 ← liftE (elemPropsTemplateSet tmpl "p_number" "FilmHeight" (.vF filmheight))
  let p08 ← liftE (elemPropsTemplateSet tmpl "p_number" "FilmAspectRatio" (.vF filmaspect))
  let p09 ← liftE (elemPropsTemplateSet tmpl "p_number" "FilmOffsetX" (.vF offsetx))
  let p10 ← liftE (elemPropsTemplateSet tmpl "p_number" "FilmOffsetY" (.vF offsety))
  let p11 ← liftE (elemPropsTemplateSet tmpl "p_enum" "ApertureMode" (.vI 3))
  let p12 ← liftE (elemPropsTemplateSet tmpl "p_enum" "GateFit" (.vI 2))
  let p13 ← liftE (elemPropsTemplateSet tmpl "p_fov" "FieldOfView" (.vF (mathDegrees cam.angle_x)))
  let p14 ← liftE (elemPropsTemplateSet tmpl "p_fov_x" "FieldOfViewX" (.vF (mathDegrees cam.angle_x)))
  let p15 ← liftE (elemPropsTemplateSet tmpl "p_fov_y" "FieldOfViewY" (.vF (mathDegrees cam.angle_y)))
  let p16 ← liftE (elemPropsTemplateSet tmpl "p_number" "FocalLength" (.vF cam.lens))
  let p17 ← liftE (elemPropsTemplateSet tmpl "p_number" "SafeAreaAspectRatio" (.vF aspect))
  let p18 ← liftE (elemPropsTemplateSet tmpl "p_number" "NearPlane" (.vF (cam.clip_start * gscale)))
  let p19 ← liftE (elemPropsTemplateSet tmpl "p_number" "FarPlane" (.vF (cam.clip_end * gscale)))
  let p20 ← liftE (elemPropsTemplateSet tmpl "p_enum" "BackPlaneDistanceMode" (.vI 1))
  let p21 ← liftE (elemPropsTemplateSet tmpl "p_number" "BackPlaneDistance" (.vF (cam.clip_end * gscale)))
  let camElem := FBXElem.mk "NodeAttribute"
    [.fInt64 uid, .fString (fbx_name_class cam.name "NodeAttribute"), .fString "Camera"]
    ([.mk "Properties70" []
        (p01 ++ p02 ++ p03 ++ p04 ++ p05 ++ p06 ++ p07 ++ p08 ++ p09 ++ p10 ++ p11 ++
         p12 ++ p13 ++ p14 ++ p15 ++ p16 ++ p17 ++ p18 ++ p19 ++ p20 ++ p21),
      elemDataSingle "TypeFlags" (.fString "Camera"),
      elemDataSingle "GeometryVersion" (.fInt32 124),
      FBXElem.mk "Position" [.fFloat64 tx.loc.1, .fFloat64 tx.loc.2.1, .fFloat64 tx.loc.2.2] [],
      FBXElem.mk "Up" [.fFloat64 tx.up.1, .fFloat64 tx.up.2.1, .fFloat64 tx.up.2.2] [],
      FBXElem.mk "LookAt" [.fFloat64 tx.lookAt.1, .fFloat64 tx.lookAt.2.1, .fFloat64 tx.lookAt.2.2] [],
      elemDataSingle "ShowInfoOnMoving" (.fInt32 1),
      elemDataSingle "ShowAudio" (.fInt32 0),
      FBXElem.mk "AudioColor" [.fFloat64 0, .fFloat64 1, .fFloat64 0] [],
      elemDataSingle "CameraOrthoZoom" (.fFloat64 1)])
  pure (camSwitcher, camElem)

/-- `t_vi[ls - 1] ^= -1` for each polygon loop start (lines 798-804):
Python `x ^ -1` is `-x - 1`, and index `-1` wraps to the last element. -/
def meshPolyVertIndex (me : BlMesh) : List Int :=
  me.polygon_loop_start.foldl
    (fun t ls =>
      let j : Int := if (ls : Int) - 1 < 0 then (t.length : Int) + ((ls : Int) - 1) else (ls : Int) - 1
      let jn := j.toNat
      t.set jn (-(t.getD jn 0) - 1))
    me.loop_vertex_index

/-- `fbx_data_mesh_elements` (lines 776-961): the `Geometry` data block.
The header, the vertex buffer and the polygon index buffer are computed
here; the layer blocks from `LayerElementNormal` onward are supplied by the
`meshLayers` oracle (their construction deduplicates through Python `set`s,
whose iteration order is arbitrary, and no verified claim reads them). -/
def fbx_data_mesh_elements (h : PyKey → Int) (orc : Oracles) (me : BlMesh)
    (data : FBXData) : EmitM FBXElem := do
  let meKey ← liftE (optE (alookup me data.data_meshes) "KeyError: data_meshes")
  let uid ← getUidM h (.kStr meKey)
  pure (.mk "Geometry"
    [.fInt64 uid, .fString (fbx_name_class me.name "Geometry"), .fString "Mesh"]
    ([elemDataSingle "GeometryVersion" (.fInt32 124),
      elemDataSingle "Vertices" (.fArrFloat64 me.co),
      elemDataSingle "PolygonVertexIndex" (.fArrInt32 (meshPolyVertIndex me))] ++
     orc.meshLayers me))

/-- `fbx_data_material_elements` (lines 964-1007): its first statement reads
`scene_data.world`, but the `FBXData` namedtuple's field is named
`data_world`, so every call raises `AttributeError` before emitting
anything.  (Unreachable in practice: the collector fails first whenever a
material was collected.) -/
def fbx_data_material_elements (_h : PyKey → Int) (_mat : BlMaterial)
    (_data : FBXData) : EmitM FBXElem :=
  fun _ => .error "AttributeError: FBXData instance has no attribute world"

/-- `fbx_data_texture_file_elements` (lines 1018-1091): the function body
contains raw pasted FBX-ASCII fragments and is not syntactically valid
Python; modelled as failing.  (Unreachable: `data_textures` is always
empty.) -/
def fbx_data_texture_file_elements (_h : PyKey → Int) (_tex : BlTex)
    (_data : FBXData) : EmitM FBXElem :=
  fun _ => .error "SyntaxError: invalid syntax in fbx_data_texture_file_elements"

/-- `fbx_data_video_elements` (lines 1094-1107): likewise syntactically
invalid Python; modelled as failing.  (Unreachable: `data_videos` is always
empty.) -/
def fbx_data_video_elements (_h : PyKey → Int) (_vid : BlImg)
    (_data : FBXData) : EmitM FBXElem :=
  fun _ => .error "SyntaxError: invalid syntax in fbx_data_video_elements"

/-- The common part of `fbx_data_object_elements` (lines 1110-1147): the
`Model` data block with its transform properties, camera objects receiving
the extra render properties of lines 1150-1160 in the same `Properties70`
block. -/
def objModelElem (h : PyKey → Int) (orc : Oracles) (obj : BObject)
    (data : FBXData) : EmitM FBXElem := do
  let obj_type : String :=
    match obj.otype with
    | .MESH => "Mesh"
    | .LAMP => "Light"
    | .CAMERA => "Camera"
    | _ => "Null"
  let objKey ← liftE (optE (alookup obj data.objects) "KeyError: objects")
  let uid ← getUidM h (.kStr objKey)
  let tx := orc.objectTx obj
  let rotDeg : Rat × Rat × Rat :=
    (units_convert tx.rot.1 "radian" "degree",
     units_convert tx.rot.2.1 "radian" "degree",
     units_convert tx.rot.2.2 "radian" "degree")
  let tmpl ← liftE (optE (alookup "Model" data.templates) "KeyError: templates")
  let ps1 ← liftE (elemPropsTemplateSet tmpl "p_lcl_translation" "Lcl Translation" (v3p tx.loc))
  let ps2 ← liftE (elemPropsTemplateSet tmpl "p_lcl_rotation" "Lcl Rotation" (v3p rotDeg))
  let ps3 ← liftE (elemPropsTemplateSet tmpl "p_lcl_scaling" "Lcl Scaling" (v3p tx.scale))
  let psCam ←
    if obj.otype = .CAMERA then do
      let width : Rat := (data.scene.render.resolution_x : Rat) * 1
      let height : Rat := (data.scene.render.resolution_y : Rat) * 1
      let c1 ← liftE (elemPropsTemplateSet tmpl "p_enum" "ResolutionMode" (.vI 0))
      let c2 ← liftE (elemPropsTemplateSet tmpl "p_number" "AspectW" (.vF width))
      let c3 ← liftE (elemPropsTemplateSet tmpl "p_number" "AspectH" (.vF height))
      let c4 ← liftE (elemPropsTemplateSet tmpl "p_bool" "ViewFrustum" (.vB true))
      let c5 ← liftE (elemPropsTemplateSet tmpl "p_enum" "BackgroundMode" (.vI 0))
      let c6 ← liftE (elemPropsTemplateSet tmpl "p_bool" "ForegroundTransparent" (.vB true))
      pure (c1 ++ c2 ++ c3 ++ c4 ++ c5 ++ c6)
    else pure []
  pure (.mk "Model"
    [.fInt64 uid, .fString (fbx_name_class obj.name "Model"), .fString obj_type]
    [elemDataSingle "Version" (.fInt32 232),
     .mk "Properties70" [] (ps1 ++ ps2 ++ ps3 ++ psCam),
     elemDataSingle "MultiLayer" (.fInt32 0),
     elemDataSingle "MultiTake" (.fInt32 0),
     elemDataSingle "Shading" (.fBool true),
     elemDataSingle "Culling" (.fString "CullingOff")])

/-- `fbx_data_object_elements` (lines 1110-1176): the `Model` block, plus,
for a camera object, the synthetic camera-switcher `Model` of
lines 1162-1176. -/
def fbx_data_object_elements (h : PyKey → Int) (orc : Oracles) (obj : BObject)
    (data : FBXData) : EmitM (List FBXElem) := do
  let model ← objModelElem h orc obj data
  if obj.otype = .CAMERA then do
    let keys ← liftE (optE (alookup obj data.data_cameras) "KeyError: data_cameras")
    let (_camKey, _camSwitcherKey, camSwitcherObjectKey) := keys
    let uidSw ← getUidM h (.kStr camSwitcherObjectKey)
    let switcher := FBXElem.mk "Model"
      [.fInt64 uidSw, .fString (fbx_name_class (obj.name ++ "_switcher") "Model"),
       .fString "CameraSwitcher"]
      [elemDataSingle "Version" (.fInt32 232),
       elem_properties,
       elemDataSingle "MultiLayer" (.fInt32 0),
       elemDataSingle "MultiTake" (.fInt32 1),
       elemDataSingle "Shading" (.fBool true),
       elemDataSingle "Culling" (.fString "CullingOff")]
    pure [model, switcher]
  else
    pure [model]

/-! ## Top-level element passes (lines 1321-1514) -/

/-- The time and application environment `fbx_header_elements` reads
(`datetime.now()`, `bpy.app.version_string`). -/
structure BlEnv where
  year : Int
  month : Int
  day : Int
  hour : Int
  minute : Int
  second : Int
  microsecond : Int
  version_string : String
deriving DecidableEq

/-- Zero-left-pad a number to `width` digits (the `"{:0N}"` formats of
line 1359). -/
def padNum (width : Nat) (n : Int) : String :=
  let s := toString n
  if s.length < width then String.mk (List.replicate (width - s.length) '0') ++ s else s

/-- `fbx_header_elements` (lines 1321-1385): the five root children written
before `Documents`. -/
def fbx_header_elements (env : BlEnv) : Except String (List FBXElem) := do
  let timestamp := FBXElem.mk "CreationTimeStamp" []
    [elemDataSingle "Version" (.fInt32 1000),
     elemDataSingle "Year" (.fInt32 env.year),
     elemDataSingle "Month" (.fInt32 env.month),
     elemDataSingle "Day" (.fInt32 env.day),
     elemDataSingle "Hour" (.fInt32 env.hour),
     elemDataSingle "Minute" (.fInt32 env.minute),
     elemDataSingle "Second" (.fInt32 env.second),
     elemDataSingle "Millisecond" (.fInt32 (env.microsecond * 1000))]
  let header_ext := FBXElem.mk "FBXHeaderExtension" []
    [elemDataSingle "FBXHeaderVersion" (.fInt32 1003),
     elemDataSingle "FBXVersion" (.fInt32 7300),
     elemDataSingle "EncryptionType" (.fInt32 0),
     timestamp,
     elemDataSingle "Creator" (.fStringU ("Blender version " ++ env.version_string))]
  let creationTime := padNum 4 env.year ++ "-" ++ padNum 2 env.month ++ "-" ++
    padNum 2 env.day ++ " " ++ padNum 2 env.hour ++ ":" ++ padNum 2 env.minute ++ ":" ++
    padNum 2 env.second ++ ":" ++ padNum 3 (env.microsecond * 1000)
  let g01 ← elem_props_set "p_integer" "UpAxis" (.vI 1)
  let g02 ← elem_props_set "p_integer" "UpAxisSign" (.vI 1)
  let g03 ← elem_props_set "p_integer" "FrontAxis" (.vI 2)
  let g04 ← elem_props_set "p_integer" "FrontAxisSign" (.vI 1)
  let g05 ← elem_props_set "p_integer" "CoordAxis" (.vI 0)
  let g06 ← elem_props_set "p_integer" "CoordAxisSign" (.vI 1)
  let g07 ← elem_props_set "p_number" "UnitScaleFactor" (.vF 1)
  let g08 ← elem_props_set "p_color_rgb" "AmbientColor" (v3 0 0 0)
  let g09 ← elem_props_set "p_string" "DefaultCamera" (.vS "")
  let g10 ← elem_props_set "p_enum" "TimeMode" (.vI 11)
  let g11 ← elem_props_set "p_timestamp" "TimeSpanStart" (.vI 0)
  let g12 ← elem_props_set "p_timestamp" "TimeSpanStop" (.vI 479181389250)
  let globalSettings := FBXElem.mk "GlobalSettings" []
    [elemDataSingle "Version" (.fInt32 1000),
     .mk "Properties70" [] (g01 :: g02 :: g03 :: g04 :: g05 :: g06 :: g07 :: g08 ::
       g09 :: g10 :: g11 :: [g12])]
  .ok [header_ext,
    elemDataSingle "FileId" (.fBytes "FooBar"),
    elemDataSingle "CreationTime" (.fStringU creationTime),
    elemDataSingle "Creator" (.fStringU ("Blender version " ++ env.version_string)),
    globalSettings]

/-- `fbx_documents_elements` (lines 1388-1412): the single document, with
its UID allocated from the sentinel-prefixed scene name. -/
def fbx_documents_elements (h : PyKey → Int) (sceneName : String) : EmitM FBXElem := do
  let docUid ← getUidM h (.kStr ("__FBX_Document__" ++ sceneName))
  let p1 ← liftE (elem_props_set "p_object" "SourceObject" .vNone)
  let p2 ← liftE (elem_props_set "p_string" "ActiveAnimStackName" (.vS ""))
  let doc := FBXElem.mk "Document" [.fInt64 docUid, .fString "", .fStringU sceneName]
    [.mk "Properties70" [] [p1, p2],
     elemDataSingle "RootNode" (.fInt64 0)]
  pure (.mk "Documents" [] [elemDataSingle "Count" (.fInt32 1), doc])

/-- `fbx_references_elements` (lines 1415-1419): an empty element. -/
def fbx_references_elements : FBXElem := elem_empty "References"

/-- `fbx_definitions_elements` (lines 1422-1432): the template version, the
declared total count (`scene_data.templates_users`), then one generated
template per entry. -/
def fbx_definitions_elements (data : FBXData) : Except String FBXElem :=
  match data.templates.mapM (fun p => fbx_template_generate p.2) with
  | .error e => .error e
  | .ok ts =>
    .ok (.mk "Definitions" []
      ([elemDataSingle "Version" (.fInt32 100),
        elemDataSingle "Count" (.fInt32 data.templates_users)] ++ ts))

/-- `fbx_objects_elements` (lines 1435-1460): the data blocks, grouped by
class in the source's fixed order. -/
def fbx_objects_elements (h : PyKey → Int) (orc : Oracles) (data : FBXData) :
    EmitM FBXElem := do
  let ls ← data.data_lamps.mapM (fun p => fbx_data_lamp_elements h p.1 data)
  let cs ← data.data_cameras.mapM (fun p => fbx_data_camera_elements h orc p.1 data)
  let ms ← data.data_meshes.mapM (fun p => fbx_data_mesh_elements h orc p.1 data)
  let os ← data.objects.mapM (fun p => fbx_data_object_elements h orc p.1 data)
  let mats ← data.data_materials.mapM (fun p => fbx_data_material_elements h p.1 data)
  let texs ← data.data_textures.mapM (fun p => fbx_data_texture_file_elements h p.1 data)
  let vids ← data.data_videos.mapM (fun p => fbx_data_video_elements h p.1 data)
  pure (.mk "Objects" []
    (ls ++ (cs.map (fun c => [c.1, c.2])).flatten ++ ms ++ os.flatten ++ mats ++ texs ++ vids))

/-- The parent key of the first connections loop (lines 1470-1474):
`par_key = 0`, replaced by the parent's key when the parent exists and is in
the dataset's objects map. -/
def objParentKey (data : FBXData) (obj : BObject) : PyKey :=
  match obj.parent with
  | none => .kInt 0
  | some pid =>
    match data.scene.objects.find? (fun o => o.oid = pid) with
    | none => .kInt 0
    | some par =>
      match alookup par data.objects with
      | some pk => .kStr pk
      | none => .kInt 0

/-- One iteration of the first connections loop (lines 1469-1475): one OO
edge from the object's UID to the UID obtained for its parent key. -/
def connObjEdge (h : PyKey → Int) (data : FBXData) (p : BObject × String) :
    EmitM FBXElem := do
  let us ← getUidM h (.kStr p.2)
  let ud ← getUidM h (objParentKey data p.1)
  pure (elem_connection_oo us ud)

/-- One iteration of the camera connections loop (lines 1478-1483): the
switcher-data to switcher-object edge, then the camera-data to
camera-object edge. -/
def connCamEdges (h : PyKey → Int) (data : FBXData)
    (p : BObject × (String × String × String)) : EmitM (List FBXElem) := do
  let (camKey, camSwitcherKey, camObjSwitcherKey) := p.2
  let u1 ← getUidM h (.kStr camSwitcherKey)
  let u2 ← getUidM h (.kStr camObjSwitcherKey)
  let camObjKey ← liftE (optE (alookup p.1 data.objects) "KeyError: objects")
  let u3 ← getUidM h (.kStr camKey)
  let u4 ← getUidM h (.kStr camObjKey)
  pure [elem_connection_oo u1 u2, elem_connection_oo u3 u4]

/-- One iteration of the lamp/mesh data connections loop (lines 1485-1491):
one OO edge from the owning datablock's UID to the object's UID. -/
def connDataEdges (h : PyKey → Int) (data : FBXData) (p : BObject × String) :
    EmitM (List FBXElem) := do
  if p.1.otype = .LAMP then do
    let lampKey ← liftE
      (match p.1.odata with
       | .dLamp l => optE (alookup l data.data_lamps) "KeyError: data_lamps"
       | _ => .error "KeyError: data_lamps")
    let u1 ← getUidM h (.kStr lampKey)
    let u2 ← getUidM h (.kStr p.2)
    pure [elem_connection_oo u1 u2]
  else if p.1.otype = .MESH then do
    let meshKey ← liftE
      (match p.1.odata with
       | .dMesh m => optE (alookup m data.data_meshes) "KeyError: data_meshes"
       | _ => .error "KeyError: data_meshes")
    let u1 ← getUidM h (.kStr meshKey)
    let u2 ← getUidM h (.kStr p.2)
    pure [elem_connection_oo u1 u2]
  else
    pure []

/-- `fbx_connections_elements` (lines 1463-1507).  The material loop
(lines 1493-1496) reads `scene_data.data_objects`, a field `FBXData` does
not have, so any material with a user raises `AttributeError`; the texture
and video loops (lines 1498-1507) pass the whole dict value pair — which
contains a dict or list — to `get_fbxuid_from_key`, raising `TypeError:
unhashable type`.  All three loops are empty for every dataset the
collector can produce. -/
def fbx_connections_elements (h : PyKey → Int) (data : FBXData) :
    EmitM FBXElem := do
  let objEdges ← data.objects.mapM (connObjEdge h data)
  let camEdges ← data.data_cameras.mapM (connCamEdges h data)
  let dataEdges ← data.objects.mapM (connDataEdges h data)
  let matEdges ← data.data_materials.mapM
    (fun p => p.2.2.mapM
      (fun _ => (fun _ => .error "AttributeError: FBXData instance has no attribute data_objects" :
        EmitM FBXElem)))
  let texEdges ← data.data_textures.mapM
    (fun _ => (fun _ => .error "TypeError: unhashable type" : EmitM FBXElem))
  let vidEdges ← data.data_videos.mapM
    (fun _ => (fun _ => .error "TypeError: unhashable type" : EmitM FBXElem))
  pure (.mk "Connections" []
    (objEdges ++ camEdges.flatten ++ dataEdges.flatten ++ matEdges.flatten ++ texEdges ++ vidEdges))

/-- `fbx_takes_elements` (lines 1510-1514): an empty element. -/
def fbx_takes_elements : FBXElem := elem_empty "Takes"

/-- `save_single` (lines 1530-1609), restricted to the in-memory document
construction (settings assembly, media path handling and the final
`encode_bin.write` are out of the modelled core).  The function never
touches, let alone resets, the module-level registry dicts: the registry
state it starts from is whatever the globals held, threaded here as the
initial `RegState`. -/
def save_single (h : PyKey → Int) (orc : Oracles) (env : BlEnv)
    (st : FBXSettingsM) (sc : BlScene) : EmitM FBXElem := do
  let scene_data ← liftE (fbx_data_from_scene st sc)
  let hdr ← liftE (fbx_header_elements env)
  let docs ← fbx_documents_elements h sc.name
  let refs := fbx_references_elements
  let defs ← liftE (fbx_definitions_elements scene_data)
  let objs ← fbx_objects_elements h orc scene_data
  let conns ← fbx_connections_elements h scene_data
  let takes := fbx_takes_elements
  pure (.mk "" [] (hdr ++ [docs, refs, defs, objs, conns, takes]))

/-! ## Concrete instances used by witnesses and counterexamples -/

/-- A hash function returning `7` for every key (any value is reachable for
CPython's seed-randomized string hash). -/
def h7 : PyKey → Int := fun _ => 7

/-- A hash function returning `5` for every key. -/
def hC5 : PyKey → Int := fun _ => 5

/-- The candidate UID at which the exhaustion scenario starts. -/
def aC3 : Int := 2 ^ 62 - 1

/-- The length of the fully occupied interval `[aC3, 2^63)`. -/
def lenC3 : Nat := 2 ^ 62 + 1

/-- A hash function sending every key to `aC3`. -/
def hC3 : PyKey → Int := fun _ => 2 ^ 62 - 1

def worldW : BlWorld := ⟨"World", (0, 0, 0)⟩

def renderW : BlRender := ⟨1920, 1080, 24, 1⟩

/-- The default export object-class filter (line 1551). -/
def stdSettings : FBXSettingsM := ⟨1, [.EMPTY, .CAMERA, .LAMP, .MESH]⟩

/-- A trivial instantiation of the external-math oracles. -/
def trivOrc : Oracles :=
  ⟨fun _ => ⟨(0, 0, 0), (0, 0, 0), (1, 1, 1), (0, 1, 0), (0, 0, -1)⟩, fun _ => []⟩

def envW : BlEnv := ⟨2013, 1, 1, 0, 0, 0, 0, "2.66"⟩

/-- An object whose type is outside the class filter. -/
def otherObj : BObject := ⟨9, "O", .OTHER, .dNone, none, []⟩

/-- A scene with no objects matching the class filter. -/
def sceneC2 : BlScene := ⟨"Scene", [otherObj], worldW, renderW⟩

def lamp1 : BlLamp :=
  ⟨"Lamp", .POINT, .INVERSE_SQUARE, false, true, true, "NOSHADOW",
   (0, 0, 0), (1, 1, 1), 1, 30, 0, 0⟩

def lampObj : BObject := ⟨1, "LampObj", .LAMP, .dLamp lamp1, none, []⟩

/-- A scene with a single unparented lamp object. -/
def lampScene : BlScene := ⟨"Scene", [lampObj], worldW, renderW⟩

/-- A single unparented empty object. -/
def objA : BObject := ⟨1, "A", .EMPTY, .dNone, none, []⟩

def sceneA : BlScene := ⟨"S", [objA], worldW, renderW⟩

/-- A registry state in which UID 0 is already taken by a string key (as
happens when some earlier key hashes to 0). -/
def s0C7 : RegState := ⟨[(.kStr "z", 0)], [(0, .kStr "z")]⟩

def mesh1 : BlMesh := ⟨"MeshA", [], [], []⟩

def mesh2 : BlMesh := ⟨"MeshB", [], [], []⟩

/-- A supported (plain-surface Lambert, no nodes) material. -/
def mat1 : BlMaterial :=
  ⟨"Mat", "SURFACE", "LAMBERT", false, "COOKTORR", (1, 1, 1), 0, 1, 1, 1,
   false, (1, 1, 1), 1, 50, (1, 1, 1)⟩

def meshObjA : BObject := ⟨1, "A", .MESH, .dMesh mesh1, none, [mat1]⟩

def meshObjB : BObject := ⟨2, "B", .MESH, .dMesh mesh2, none, [mat1]⟩

/-- One supported material used by two mesh objects. -/
def matScene : BlScene := ⟨"Scene", [meshObjA, meshObjB], worldW, renderW⟩

/-- The empty scene named `T`. -/
def sceneT : BlScene := ⟨"T", [], worldW, renderW⟩

/-- A registry state with one pre-existing registration. -/
def s0C5 : RegState := ⟨[(.kStr "q", 3)], [(3, .kStr "q")]⟩

/-- A template recording a `p_object` default (as the Model template does
for `LookAtProperty`). -/
def tmplC4 : FBXTemplate :=
  ⟨"Model", "KFbxNode", [("LookAtProperty", (.vNone, "p_object"))], 0⟩

/-- A template recording a 3-vector default. -/
def tmplC4w : FBXTemplate :=
  ⟨"Geometry", "KFbxMesh", [("BBoxMin", (v3 0 0 0, "p_vector_3d"))], 0⟩

/-- A placeholder dataset used only as the fallback of `dataOf`. -/
def fbxDataZero : FBXData :=
  ⟨[], 0, ⟨0, []⟩, ⟨"", [], ⟨"", (0, 0, 0)⟩, ⟨0, 0, 0, 0⟩⟩, [], [], [], [], [], [], [], []⟩

/-- The dataset `fbx_data_from_scene` produces (fallback value when it
fails); lets witnesses state producer equations by `rfl`. -/
def dataOf (st : FBXSettingsM) (sc : BlScene) : FBXData :=
  match fbx_data_from_scene st sc with
  | .ok d => d
  | .error _ => fbxDataZero

/-- Run an emitter, returning a default on failure; lets witnesses state
run equations by `rfl`. -/
def runPassOf {α : Type} (m : EmitM α) (s : RegState) (d : α) : α × RegState :=
  match m.run s with
  | .ok r => r
  | .error _ => (d, s)

/-- The definitions element (fallback on failure). -/
def defsElemOf (data : FBXData) : FBXElem :=
  match fbx_definitions_elements data with
  | .ok e => e
  | .error _ => elem_empty ""

/-- The registry state after a `save_single` run (unchanged on failure). -/
def regAfterSave (h : PyKey → Int) (orc : Oracles) (env : BlEnv)
    (st : FBXSettingsM) (sc : BlScene) (s : RegState) : RegState :=
  (runPassOf (save_single h orc env st sc) s (elem_empty "")).2

/-- Blender's guarantee that an object's datablock matches its type for the
three kinds the exporter dereferences. -/
def dataMatches (o : BObject) : Bool :=
  match o.otype, o.odata with
  | .CAMERA, .dCamera _ => true
  | .CAMERA, _ => false
  | .LAMP, .dLamp _ => true
  | .LAMP, _ => false
  | .MESH, .dMesh _ => true
  | .MESH, _ => false
  | _, _ => true

/-- Scene well-formedness: every object's datablock matches its type. -/
def SceneWF (sc : BlScene) : Prop := ∀ o ∈ sc.objects, dataMatches o = true

/-- The registry state after assigning keys `"a"`, `"b"`, `0` under `h7`. -/
def regC1w : RegState :=
  ⟨[(.kStr "a", 7), (.kStr "b", 8), (.kInt 0, 0)],
   [(7, .kStr "a"), (8, .kStr "b"), (0, .kInt 0)]⟩

/-- The registry state after assigning key `"a"` under `h7`. -/
def regC10w : RegState := ⟨[(.kStr "a", 7)], [(7, .kStr "a")]⟩

/-- `get_fbxuid_from_key` result projection (fallback `-1` on failure);
lets witnesses state returned-UID equations by `rfl`. -/
def uidOf (h : PyKey → Int) (s : RegState) (k : PyKey) : Int :=
  match get_fbxuid_from_key h s k with
  | .ok r => r.1
  | .error _ => -1

/-- Registry preservation through an emitter: a successful run never drops
or rebinds a key already present in `_keys_to_uids` when it starts. -/
def KeepsKeys {α : Type} (m : EmitM α) : Prop :=
  ∀ (s : RegState) (a : α) (s' : RegState), m.run s = .ok (a, s') →
    ∀ (k : PyKey) (u : Int), alookup k s.keysToUids = some u →
      alookup k s'.keysToUids = some u

/-- The C5 scenario's `save_single` run (empty scene `T`, every hash `5`),
started from the pre-populated registry `s0C5`. -/
def runC5 : FBXElem × RegState :=
  runPassOf (save_single hC5 trivOrc envW stdSettings sceneT) s0C5 (elem_empty "")

/-- The C7 scenario's run of the first connections loop: one unparented
object, started from a registry in which UID 0 is already taken. -/
def runC7 : List FBXElem × RegState :=
  runPassOf
    ((dataOf stdSettings sceneA).objects.mapM (connObjEdge h7 (dataOf stdSettings sceneA)))
    s0C7 []

/-- The C2 witness dataset: a single unparented lamp. -/
def dataC2w : FBXData := dataOf stdSettings lampScene

/-- The C2 witness run of the `Objects` pass. -/
def runObjsC2w : FBXElem × RegState :=
  runPassOf (fbx_objects_elements h7 trivOrc dataC2w) regInit (elem_empty "")

/-! ## Association-list lemmas -/

theorem alookup_append {α β : Type} [DecidableEq α] (m : List (α × β)) (a : α)
    (b : β) (k : α) :
    alookup k (m ++ [(a, b)]) =
      match alookup k m with
      | some v => some v
      | none => if a = k then some b else none := by
  induction m with
  | nil => simp [alookup]
  | cons p t ih =>
    by_cases hp : p.1 = k <;> simp [alookup, hp, ih]

theorem alookup_eq_none_iff {α β : Type} [DecidableEq α] (m : List (α × β)) (k : α) :
    alookup k m = none ↔ k ∉ m.map Prod.fst := by
  induction m with
  | nil => simp [alookup]
  | cons p t ih =>
    by_cases hp : p.1 = k
    · simp [alookup, hp]
    · have hne : ¬ k = p.1 := fun hcontr => hp hcontr.symm
      simp [alookup, hp, hne, ih]

theorem dinsert_absent {α β : Type} [DecidableEq α] {m : List (α × β)} {k : α}
    (v : β) (hk : alookup k m = none) : dinsert m k v = m ++ [(k, v)] := by
  simp [dinsert, hk]

theorem dinsert_fst_nodup {α β : Type} [DecidableEq α] {m : List (α × β)}
    (hm : (m.map Prod.fst).Nodup) (k : α) (v : β) :
    ((dinsert m k v).map Prod.fst).Nodup := by
  cases hl : alookup k m with
  | some v0 =>
    have : ((m.map fun p => if p.1 = k then (k, v) else p).map Prod.fst) = m.map Prod.fst := by
      rw [List.map_map]
      apply List.map_congr_left
      intro p _
      by_cases hp : p.1 = k <;> simp [hp]
    simp only [dinsert, hl, Option.isSome_some, if_true, this]
    exact hm
  | none =>
    simp only [dinsert, hl, Option.isSome_none, Bool.false_eq_true, if_false,
      List.map_append, List.map_cons, List.map_nil]
    rw [List.nodup_append]
    refine ⟨hm, List.nodup_singleton k, ?_⟩
    intro a ha hb
    simp at hb
    subst hb
    exact ((alookup_eq_none_iff m a).mp hl) ha

theorem alookup_of_forall_ne {α β : Type} [DecidableEq α] {m : List (α × β)} {k : α}
    (hall : ∀ p ∈ m, p.1 ≠ k) : alookup k m = none := by
  induction m with
  | nil => rfl
  | cons p t ih =>
    have hp := hall p (by simp)
    simp only [alookup, hp, if_false]
    exact ih (fun q hq => hall q (by simp [hq]))

/-! ## Registry lemmas -/

theorem regInv_init : RegInv regInit := by
  refine ⟨by simp [regInit], by simp [regInit], ?_⟩
  intro k u
  simp [regInit, alookup]

theorem probeUid_ok_not_mem {uids : List (Int × PyKey)} {inc : Int} :
    ∀ {n : Nat} {uid u : Int}, probeUid uids inc n uid = .ok u →
      alookup u uids = none := by
  intro n
  induction n with
  | zero => intro uid u hp; simp [probeUid] at hp
  | succ n ih =>
    intro uid u hp
    unfold probeUid at hp
    cases hl : alookup uid uids with
    | some v =>
      rw [hl] at hp
      simp only [Option.isSome_some, if_true] at hp
      by_cases hg : 0 > uid + inc ∧ uid + inc ≥ 2 ^ 63
      · exact absurd hg (by omega)
      · rw [if_neg hg] at hp
        exact ih hp
    | none =>
      rw [hl] at hp
      simp only [Option.isSome_none, Bool.false_eq_true, if_false, Except.ok.injEq] at hp
      exact hp ▸ hl

theorem keyToUid_ok_not_mem {h : PyKey → Int} {uids : List (Int × PyKey)}
    {key : PyKey} {u : Int} (hk : keyToUid h uids key = .ok u) :
    alookup u uids = none := by
  unfold keyToUid at hk
  cases hl : alookup (uidCandidate h key) uids with
  | some v =>
    rw [hl] at hk
    simp only [Option.isSome_some, if_true] at hk
    exact probeUid_ok_not_mem hk
  | none =>
    rw [hl] at hk
    simp only [Option.isSome_none, Bool.false_eq_true, if_false, Except.ok.injEq] at hk
    exact hk ▸ hl

/-- The two possible outcomes of a successful `get_fbxuid_from_key` call: a
pure cache hit leaving the state unchanged, or a fresh allocation appending
a previously unseen key and a previously unused UID to both dicts. -/
theorem get_ok_cases {h : PyKey → Int} {s : RegState} {key : PyKey} {u : Int}
    {s' : RegState} (hg : get_fbxuid_from_key h s key = .ok (u, s')) :
    (alookup key s.keysToUids = some u ∧ s' = s) ∨
    (alookup key s.keysToUids = none ∧ alookup u s.uidsToKeys = none ∧
      s'.keysToUids = s.keysToUids ++ [(key, u)] ∧
      s'.uidsToKeys = s.uidsToKeys ++ [(u, key)]) := by
  unfold get_fbxuid_from_key at hg
  cases hk : alookup key s.keysToUids with
  | some u0 =>
    rw [hk] at hg
    simp only [Except.ok.injEq, Prod.mk.injEq] at hg
    exact Or.inl ⟨congrArg some hg.1, hg.2.symm⟩
  | none =>
    rw [hk] at hg
    cases hku : keyToUid h s.uidsToKeys key with
    | error e => rw [hku] at hg; simp at hg
    | ok uid =>
      rw [hku] at hg
      simp only [Except.ok.injEq, Prod.mk.injEq] at hg
      obtain ⟨h1, h2⟩ := hg
      have hfree := keyToUid_ok_not_mem hku
      have hfree2 : alookup u s.uidsToKeys = none := by rw [← h1]; exact hfree
      refine Or.inr ⟨rfl, hfree2, ?_, ?_⟩
      · rw [← h2]
        show dinsert s.keysToUids key uid = s.keysToUids ++ [(key, u)]
        rw [dinsert_absent uid hk, h1]
      · rw [← h2]
        show dinsert s.uidsToKeys uid key = s.uidsToKeys ++ [(u, key)]
        rw [dinsert_absent key hfree, h1]

theorem get_cached {h : PyKey → Int} {s : RegState} {key : PyKey} {u : Int}
    (hk : alookup key s.keysToUids = some u) :
    get_fbxuid_from_key h s key = .ok (u, s) := by
  unfold get_fbxuid_from_key
  rw [hk]

/-- Entries already present in the key table survive any successful call. -/
theorem get_mono {h : PyKey → Int} {s : RegState} {key : PyKey} {u : Int}
    {s' : RegState} (hg : get_fbxuid_from_key h s key = .ok (u, s'))
    {k0 : PyKey} {u0 : Int} (hk0 : alookup k0 s.keysToUids = some u0) :
    alookup k0 s'.keysToUids = some u0 := by
  rcases get_ok_cases hg with ⟨_, rfl⟩ | ⟨_, _, hks, _⟩
  · exact hk0
  · rw [hks, alookup_append, hk0]

/-- After a successful call the key is registered with the returned UID. -/
theorem get_reg {h : PyKey → Int} {s : RegState} {key : PyKey} {u : Int}
    {s' : RegState} (hg : get_fbxuid_from_key h s key = .ok (u, s')) :
    alookup key s'.keysToUids = some u := by
  rcases get_ok_cases hg with ⟨hk, rfl⟩ | ⟨hk, _, hks, _⟩
  · exact hk
  · rw [hks, alookup_append, hk]
    simp

/-- C10 core: a successful call preserves the mutual-inverse invariant. -/
theorem regInv_step {h : PyKey → Int} {s : RegState} {key : PyKey} {u : Int}
    {s' : RegState} (hinv : RegInv s)
    (hg : get_fbxuid_from_key h s key = .ok (u, s')) : RegInv s' := by
  rcases get_ok_cases hg with ⟨_, rfl⟩ | ⟨hk, hu, hks, hus⟩
  · exact hinv
  · refine ⟨?_, ?_, ?_⟩
    · rw [hks, List.map_append]
      simp only [List.map_cons, List.map_nil]
      rw [List.nodup_append]
      refine ⟨hinv.nodupK, List.nodup_singleton key, ?_⟩
      intro a ha hb
      simp at hb
      subst hb
      exact ((alookup_eq_none_iff _ _).mp hk) ha
    · rw [hus, List.map_append]
      simp only [List.map_cons, List.map_nil]
      rw [List.nodup_append]
      refine ⟨hinv.nodupU, List.nodup_singleton u, ?_⟩
      intro a ha hb
      simp at hb
      subst hb
      exact ((alookup_eq_none_iff _ _).mp hu) ha
    · intro k0 u0
      rw [hks, hus, alookup_append, alookup_append]
      cases hk0 : alookup k0 s.keysToUids with
      | some v =>
        have hv := (hinv.mutual_inv k0 v).mp hk0
        cases hu0 : alookup u0 s.uidsToKeys with
        | some w =>
          simp only []
          constructor
          · intro he
            have hveq : v = u0 := by
              simpa using he
            subst hveq
            rw [hv] at hu0
            simpa using hu0.symm
          · intro he
            have hweq : w = k0 := by
              simpa using he
            subst hweq
            have := (hinv.mutual_inv w u0).mpr hu0
            rw [this] at hk0
            simpa using hk0.symm
        | none =>
          simp only []
          constructor
          · intro he
            have hveq : v = u0 := by simpa using he
            subst hveq
            rw [hv] at hu0
            simp at hu0
          · intro he
            by_cases huu : u = u0
            · simp only [huu, if_true] at he
              have : key = k0 := by simpa using he
              subst this
              rw [hk0] at hk
              simp at hk
            · simp [huu] at he
      | none =>
        cases hu0 : alookup u0 s.uidsToKeys with
        | some w =>
          simp only []
          constructor
          · intro he
            by_cases hkk : key = k0
            · simp only [hkk, if_true] at he
              have : u = u0 := by simpa using he
              subst this
              rw [hu0] at hu
              simp at hu
            · simp [hkk] at he
          · intro he
            have hweq : w = k0 := by simpa using he
            subst hweq
            have := (hinv.mutual_inv w u0).mpr hu0
            rw [this] at hk0
            simp at hk0
        | none =>
          by_cases hkk : key = k0
          · subst hkk
            by_cases huu : u = u0
            · subst huu
              simp
            · simp only [if_pos rfl, huu, if_false]
              constructor
              · intro he
                have : u = u0 := by simpa using he
                exact absurd this huu
              · intro he
                simp at he
          · by_cases huu : u = u0
            · subst huu
              simp only [hkk, if_false, if_pos rfl]
              constructor
              · intro he
                simp at he
              · intro he
                have : key = k0 := by simpa using he
                exact absurd this hkk
            · simp [hkk, huu]

/-- A cache hit leaves both tables untouched and returns the stored UID. -/
theorem get_pure_lookup {h : PyKey → Int} {s : RegState} {key : PyKey} {u : Int}
    {s' : RegState} (hg : get_fbxuid_from_key h s key = .ok (u, s'))
    (hsome : (alookup key s.keysToUids).isSome) :
    s' = s ∧ alookup key s.keysToUids = some u := by
  rcases get_ok_cases hg with ⟨hk, rfl⟩ | ⟨hk, _, _, _⟩
  · exact ⟨rfl, hk⟩
  · rw [hk] at hsome; simp at hsome

/-! ## Call-sequence lemmas -/

theorem forall2_mem_right {α β : Type} {R : α → β → Prop} :
    ∀ {as_ : List α} {bs : List β}, List.Forall₂ R as_ bs →
      ∀ {b}, b ∈ bs → ∃ a ∈ as_, R a b := by
  intro as_ bs hf
  induction hf with
  | nil => intro b hb; simp at hb
  | cons hr hfa ih =>
    intro b hb
    rcases List.mem_cons.mp hb with rfl | hb2
    · exact ⟨_, by simp, hr⟩
    · obtain ⟨a, ha, hra⟩ := ih hb2
      exact ⟨a, by simp [ha], hra⟩

theorem forall2_zip_mem {α β : Type} {R : α → β → Prop} :
    ∀ {as_ : List α} {bs : List β}, List.Forall₂ R as_ bs →
      ∀ {p : α × β}, p ∈ as_.zip bs → R p.1 p.2 := by
  intro as_ bs hf
  induction hf with
  | nil => intro p hp; simp at hp
  | cons hr hfa ih =>
    intro p hp
    rcases List.mem_cons.mp hp with rfl | hp2
    · exact hr
    · exact ih hp2

/-- A successful run of a key sequence preserves the invariant, keeps the
old registrations, and registers every key of the sequence with the UID
returned for it. -/
theorem runKeys_props {h : PyKey → Int} :
    ∀ {ks : List PyKey} {s : RegState} {us : List Int} {s' : RegState},
      RegInv s → runKeys h s ks = .ok (us, s') →
      RegInv s' ∧
      (∀ k0 u0, alookup k0 s.keysToUids = some u0 → alookup k0 s'.keysToUids = some u0) ∧
      List.Forall₂ (fun k u => alookup k s'.keysToUids = some u) ks us := by
  intro ks
  induction ks with
  | nil =>
    intro s us s' hinv hr
    unfold runKeys at hr
    simp only [Except.ok.injEq, Prod.mk.injEq] at hr
    obtain ⟨h1, h2⟩ := hr
    subst h2
    exact ⟨hinv, fun _ _ hk => hk, h1 ▸ List.Forall₂.nil⟩
  | cons k ks ih =>
    intro s us s' hinv hr
    unfold runKeys at hr
    cases hg : get_fbxuid_from_key h s k with
    | error e => rw [hg] at hr; simp at hr
    | ok p =>
      obtain ⟨u, s1⟩ := p
      rw [hg] at hr
      dsimp only at hr
      cases hrk : runKeys h s1 ks with
      | error e => rw [hrk] at hr; simp at hr
      | ok q =>
        obtain ⟨us2, s2⟩ := q
        rw [hrk] at hr
        simp only [Except.ok.injEq, Prod.mk.injEq] at hr
        obtain ⟨h1, h2⟩ := hr
        subst h2
        have hinv1 := regInv_step hinv hg
        obtain ⟨hinv2, hmono2, hfa⟩ := ih hinv1 hrk
        refine ⟨hinv2, ?_, ?_⟩
        · intro k0 u0 hk0
          exact hmono2 k0 u0 (get_mono hg hk0)
        · rw [← h1]
          exact List.Forall₂.cons (hmono2 k u (get_reg hg)) hfa

/-- Distinct keys registered by an invariant-respecting state map to
distinct UIDs. -/
theorem registered_nodup {s' : RegState} (hinv : RegInv s') :
    ∀ {ks : List PyKey} {us : List Int},
      List.Forall₂ (fun k u => alookup k s'.keysToUids = some u) ks us →
      ks.Nodup → us.Nodup := by
  intro ks us hf
  induction hf with
  | nil => intro _; exact List.nodup_nil
  | @cons k u ks2 us2 hr hfa ih =>
    intro hnd
    rw [List.nodup_cons] at hnd
    refine List.nodup_cons.mpr ⟨?_, ih hnd.2⟩
    intro hu
    obtain ⟨k2, hk2, hrk2⟩ := forall2_mem_right hfa hu
    have h1 := (hinv.mutual_inv k u).mp hr
    have h2 := (hinv.mutual_inv k2 u).mp hrk2
    rw [h1] at h2
    have hkk : k = k2 := by simpa using h2
    exact hnd.1 (hkk ▸ hk2)

/-- C1: for a sequence of `get_fbxuid_from_key` calls from the freshly
imported (empty) registry with pairwise-distinct keys, the returned UIDs are
pairwise distinct; and re-calling with any key of the sequence afterwards is
a pure lookup returning that key's original UID with the state unchanged. -/
theorem claim_C1_uid_uniqueness_and_stability :
    ∀ (h : PyKey → Int) (ks : List PyKey) (us : List Int) (s' : RegState),
      ks.Nodup → runKeys h regInit ks = .ok (us, s') →
      us.Nodup ∧
      ∀ p ∈ ks.zip us, get_fbxuid_from_key h s' p.1 = .ok (p.2, s') := by
  intro h ks us s' hnd hr
  obtain ⟨hinv2, _, hfa⟩ := runKeys_props regInv_init hr
  refine ⟨registered_nodup hinv2 hfa hnd, ?_⟩
  intro p hp
  exact get_cached (forall2_zip_mem hfa hp)

theorem claim_C1_witness :
    [(7 : Int), 8, 0].Nodup ∧
    ∀ p ∈ ([PyKey.kStr "a", PyKey.kStr "b", PyKey.kInt 0].zip [(7 : Int), 8, 0]),
      get_fbxuid_from_key h7 regC1w p.1 = .ok (p.2, regC1w) :=
  claim_C1_uid_uniqueness_and_stability h7
    [PyKey.kStr "a", PyKey.kStr "b", PyKey.kInt 0] [7, 8, 0] regC1w
    (by decide) rfl

/-- C10: the two registry dicts start as mutual inverses at module import,
every successful `get_fbxuid_from_key` call preserves that bijection, and a
call whose key is already registered is a pure lookup leaving the state
unchanged. -/
theorem claim_C10_registry_mutual_inverse :
    RegInv regInit ∧
    ∀ (h : PyKey → Int) (s : RegState) (key : PyKey) (u : Int) (s' : RegState),
      RegInv s → get_fbxuid_from_key h s key = .ok (u, s') →
      RegInv s' ∧
      ((alookup key s.keysToUids).isSome → s' = s ∧ alookup key s.keysToUids = some u) :=
  ⟨regInv_init, fun _ _ _ _ _ hinv hg => ⟨regInv_step hinv hg, get_pure_lookup hg⟩⟩

theorem claim_C10_witness :
    RegInv regC10w ∧
    ((alookup (PyKey.kStr "a") regInit.keysToUids).isSome →
      regC10w = regInit ∧ alookup (PyKey.kStr "a") regInit.keysToUids = some 7) :=
  claim_C10_registry_mutual_inverse.2 h7 regInit (.kStr "a") 7 regC10w
    claim_C10_registry_mutual_inverse.1 rfl

/-! ## The exhaustion scenario (claims C3 and C6)

`_key_to_uid`'s loop guard is the chained comparison `0 > uid >= 2**63`,
i.e. `0 > uid and uid >= 2**63`, which no integer satisfies: the
`ValueError` is unreachable.  When every UID from the candidate up to
`2^63 - 1` is occupied, the `+1` probe therefore walks out of the legal
range and returns `2^63`. -/

theorem intervalUids_succ (a : Int) (len : Nat) :
    intervalUids a (len + 1) = (a, .kInt a) :: intervalUids (a + 1) len := by
  unfold intervalUids
  rw [List.range_succ_eq_map]
  simp only [List.map_cons, List.map_map, Nat.cast_zero, add_zero]
  congr 1
  apply List.map_congr_left
  intro i _
  simp only [Function.comp_apply, Prod.mk.injEq, PyKey.kInt.injEq]
  constructor <;> (push_cast; ring)

theorem alookup_intervalUids (a : Int) (len : Nat) (u : Int) :
    alookup u (intervalUids a len) =
      if a ≤ u ∧ u < a + len then some (.kInt u) else none := by
  induction len generalizing a with
  | zero =>
    rw [if_neg (by omega)]
    rfl
  | succ n ih =>
    rw [intervalUids_succ]
    by_cases hau : a = u
    · subst hau
      simp only [alookup, if_pos rfl]
      have hc : a ≤ a ∧ a < a + ((n + 1 : Nat) : Int) := by omega
      rw [if_pos hc]
      simp
    · have hne : ¬ (a, PyKey.kInt a).1 = u := hau
      simp only [alookup, hne, if_false]
      rw [ih (a + 1)]
      by_cases hin : a + 1 ≤ u ∧ u < a + 1 + n
      · have hc : a ≤ u ∧ u < a + ((n + 1 : Nat) : Int) := by push_cast at hin ⊢; omega
        rw [if_pos hin, if_pos hc]
      · have hc : ¬ (a ≤ u ∧ u < a + ((n + 1 : Nat) : Int)) := by
          push_cast at hin ⊢
          omega
        rw [if_neg hin, if_neg hc]

theorem intervalUids_length (a : Int) (len : Nat) :
    (intervalUids a len).length = len := by
  unfold intervalUids
  rw [List.length_map, List.length_range]

theorem probeUid_interval (a : Int) (len : Nat) :
    ∀ (n : Nat) (j : Nat), j ≤ len → len - j < n →
      probeUid (intervalUids a len) 1 n (a + j) = .ok (a + len) := by
  intro n
  induction n with
  | zero => intro j hj hlt; omega
  | succ n ih =>
    intro j hj hlt
    unfold probeUid
    rw [alookup_intervalUids]
    by_cases hje : j = len
    · have hc : ¬ (a ≤ a + ((j : Nat) : Int) ∧ a + ((j : Nat) : Int) < a + ((len : Nat) : Int)) := by
        omega
      rw [if_neg hc]
      have hfin : a + ((j : Nat) : Int) = a + ((len : Nat) : Int) := by omega
      rw [hfin]
      simp
    · have hc : a ≤ a + ((j : Nat) : Int) ∧ a + ((j : Nat) : Int) < a + ((len : Nat) : Int) := by
        omega
      rw [if_pos hc]
      simp only [Option.isSome_some, if_true]
      have hg : ¬ ((0 : Int) > a + (j : Int) + 1 ∧ a + (j : Int) + 1 ≥ 2 ^ 63) := by omega
      rw [if_neg hg]
      have hstep : a + (j : Int) + 1 = a + ((j + 1 : Nat) : Int) := by push_cast; ring
      rw [hstep]
      exact ih (j + 1) (by omega) (by omega)

theorem keyToUid_interval :
    keyToUid hC3 (intervalUids aC3 lenC3) (.kStr "x") = .ok (2 ^ 63) := by
  have hcand : uidCandidate hC3 (.kStr "x") = aC3 := by
    simp only [uidCandidate, hC3, foldHash, aC3]
    norm_num
  unfold keyToUid
  have hc : aC3 ≤ aC3 ∧ aC3 < aC3 + ((lenC3 : Nat) : Int) := by
    unfold aC3 lenC3
    omega
  rw [hcand, alookup_intervalUids, if_pos hc]
  simp only [Option.isSome_some, if_true]
  have hinc : aC3 < 2 ^ 62 := by unfold aC3; omega
  rw [if_pos hinc, intervalUids_length]
  have hp := probeUid_interval aC3 lenC3 (lenC3 + 1) 0 (by omega) (by omega)
  rw [show aC3 + ((0 : Nat) : Int) = aC3 by simp] at hp
  rw [hp]
  have hfin : aC3 + ((lenC3 : Nat) : Int) = 2 ^ 63 := by
    unfold aC3 lenC3
    norm_num
  rw [hfin]

/-- C3 (code bug): with every UID of `[2^62 - 1, 2^63)` occupied and a key
whose candidate is `2^62 - 1`, `_key_to_uid` probes out of the legal range
and returns `2^63` — no `ValueError` is ever raised, because the guard
`0 > uid >= 2**63` chains to an unsatisfiable conjunction.  The claimed
"ID space exhausted" failure does not exist: the call silently returns an
out-of-range UID. -/
theorem claim_C3_exhaustion_not_detected :
    keyToUid hC3 (intervalUids aC3 lenC3) (.kStr "x") = .ok (2 ^ 63) ∧
    ¬ ((2 : Int) ^ 63 < 2 ^ 63) ∧
    ∀ e, keyToUid hC3 (intervalUids aC3 lenC3) (.kStr "x") ≠ .error e := by
  refine ⟨keyToUid_interval, by norm_num, ?_⟩
  intro e hcontr
  rw [keyToUid_interval] at hcontr
  exact Except.noConfusion hcontr

theorem alookup_intervalKeys_str (a : Int) (len : Nat) (str : String) :
    alookup (PyKey.kStr str) (intervalKeys a len) = none := by
  apply alookup_of_forall_ne
  intro p hp
  simp only [intervalKeys, List.mem_map, List.mem_range] at hp
  obtain ⟨i, _, hip⟩ := hp
  rw [← hip]
  simp

/-- A fresh allocation spelled out on explicit table lists: when the key is
unseen, `_key_to_uid` returns `u`, and `u` is unused, the call returns `u`
and appends the pair to both dicts. -/
theorem get_fresh_explicit (h : PyKey → Int) (ks : List (PyKey × Int))
    (us : List (Int × PyKey)) (key : PyKey) (u : Int)
    (hk : alookup key ks = none)
    (hku : keyToUid h us key = .ok u)
    (hu : alookup u us = none) :
    get_fbxuid_from_key h ⟨ks, us⟩ key =
      .ok (u, ⟨ks ++ [(key, u)], us ++ [(u, key)]⟩) := by
  unfold get_fbxuid_from_key
  simp only [hk, hku]
  rw [dinsert_absent _ hk, dinsert_absent _ hu]

/-- C6 (code bug): in the exhaustion scenario `get_fbxuid_from_key` returns
the UID `2^63`, which is not below the `2^63` ceiling, and records it in
both tables — the source's own comment says UIDs are kept below `2^63`, but
the dead range guard lets the probe escape. -/
theorem claim_C6_uid_out_of_range :
    get_fbxuid_from_key hC3 ⟨intervalKeys aC3 lenC3, intervalUids aC3 lenC3⟩ (.kStr "x") =
      .ok (2 ^ 63, ⟨intervalKeys aC3 lenC3 ++ [(.kStr "x", 2 ^ 63)],
                    intervalUids aC3 lenC3 ++ [(2 ^ 63, .kStr "x")]⟩) ∧
    (0 : Int) ≤ 2 ^ 63 ∧
    ¬ ((2 : Int) ^ 63 < 2 ^ 63) := by
  have h1 : alookup (PyKey.kStr "x") (intervalKeys aC3 lenC3) = none :=
    alookup_intervalKeys_str aC3 lenC3 "x"
  have h3 : alookup ((2 : Int) ^ 63) (intervalUids aC3 lenC3) = none := by
    rw [alookup_intervalUids]
    have hc : ¬ (aC3 ≤ (2 : Int) ^ 63 ∧ (2 : Int) ^ 63 < aC3 + ((lenC3 : Nat) : Int)) := by
      unfold aC3 lenC3
      norm_num
    rw [if_neg hc]
  exact ⟨get_fresh_explicit hC3 _ _ _ _ h1 keyToUid_interval h3, by norm_num, by norm_num⟩

/-! ## Property-encoder lemmas (claims C4 and C8) -/

theorem alookup_mem {α β : Type} [DecidableEq α] {m : List (α × β)} {k : α} {v : β}
    (hl : alookup k m = some v) : (k, v) ∈ m := by
  induction m with
  | nil => simp [alookup] at hl
  | cons p t ih =>
    by_cases hp : p.1 = k
    · simp only [alookup, hp, if_true, Option.some.injEq] at hl
      obtain ⟨a, b⟩ := p
      cases hp
      cases hl
      exact List.mem_cons_self _ _
    · simp only [alookup, hp, if_false] at hl
      exact List.mem_cons_of_mem p (ih hl)

/-- `elem_props_set` defers to the raw encoder once the kind is resolved. -/
theorem elem_props_set_eq_raw {ptypeName name : String} {value : PyVal} {pdef : PDef}
    (hl : alookup ptypeName FBX_PROPERTIES_DEFINITIONS = some pdef) :
    elem_props_set ptypeName name value = elemPropsSetRaw pdef name value := by
  unfold elem_props_set
  rw [hl]

/-- Every multi-setter kind in `FBX_PROPERTIES_DEFINITIONS` uses three
`add_float64` setters. -/
theorem multi_setters_are_float :
    ∀ p ∈ FBX_PROPERTIES_DEFINITIONS, 2 ≤ p.2.setters.length →
      p.2.setters = [.addFloat64, .addFloat64, .addFloat64] := by
  decide

theorem applySetters_float :
    ∀ (sts : List Setter), (∀ st ∈ sts, st = .addFloat64) → ∀ (qs : List Rat),
      applySetters (sts.zip (qs.map PyVal.vF)) =
        .ok ((sts.zip qs).map (fun p => FProp.fFloat64 p.2)) := by
  intro sts
  induction sts with
  | nil => intro _ qs; rfl
  | cons st sts ih =>
    intro hall qs
    cases qs with
    | nil => rfl
    | cons q qs =>
      have hst : st = .addFloat64 := hall st (by simp)
      subst hst
      simp only [List.map_cons, List.zip_cons_cons, applySetters, applySetter]
      have h2 := ih (fun s hs => hall s (by simp [hs])) qs
      rw [show sts.zip (List.map PyVal.vF qs) =
            List.zipWith Prod.mk sts (List.map PyVal.vF qs) from rfl] at h2
      rw [h2]

/-- C8 (amended): for a multi-value kind and a tuple of floats, the encoder
never fails on an arity mismatch — `zip` silently truncates to the shorter
of the setter list and the value, writing `min 3 (len value)` scalars (never
more than the declared arity, fewer when the value is short). -/
theorem claim_C8_zip_truncates :
    ∀ (ptypeName name : String) (pdef : PDef) (qs : List Rat),
      alookup ptypeName FBX_PROPERTIES_DEFINITIONS = some pdef →
      2 ≤ pdef.setters.length →
      elem_props_set ptypeName name (.vTup (qs.map PyVal.vF)) =
        .ok (.mk "P"
          ([.fString name, .fString pdef.t1, .fString pdef.t2, .fString pdef.t3] ++
           (pdef.setters.zip qs).map (fun p => FProp.fFloat64 p.2)) []) ∧
      ((pdef.setters.zip qs).map (fun p => FProp.fFloat64 p.2)).length =
        min pdef.setters.length qs.length := by
  intro ptypeName name pdef qs hl hlen
  have hsts : pdef.setters = [.addFloat64, .addFloat64, .addFloat64] := by
    exact multi_setters_are_float (ptypeName, pdef) (alookup_mem hl) hlen
  constructor
  · rw [elem_props_set_eq_raw hl]
    obtain ⟨t1, t2, t3, sts⟩ := pdef
    simp only at hsts
    subst hsts
    simp only [elemPropsSetRaw, pyTuple]
    rw [applySetters_float _ (by decide) qs]
  · rw [List.length_map, List.length_zip]

theorem claim_C8_witness :
    elem_props_set "p_vector_3d" "V" (.vTup (([1, 2] : List Rat).map PyVal.vF)) =
      .ok (.mk "P"
        ([.fString "V", .fString "Vector3D", .fString "Vector", .fString ""] ++
         (([Setter.addFloat64, .addFloat64, .addFloat64].zip ([1, 2] : List Rat)).map
           (fun p => FProp.fFloat64 p.2))) []) ∧
    ((([Setter.addFloat64, .addFloat64, .addFloat64].zip ([1, 2] : List Rat)).map
       (fun p => FProp.fFloat64 p.2))).length =
      min ([Setter.addFloat64, .addFloat64, .addFloat64].length) ([1, 2] : List Rat).length :=
  claim_C8_zip_truncates "p_vector_3d" "V"
    ⟨"Vector3D", "Vector", "", [.addFloat64, .addFloat64, .addFloat64]⟩ [1, 2]
    (by decide) (by decide)

/-- C8 (counterexample to the claim as stated): a 2-element value for the
3-ary `p_vector_3d` kind is not a fatal error — the call succeeds and
silently writes only two scalars. -/
theorem claim_C8_counterexample :
    elem_props_set "p_vector_3d" "Value" (.vTup [.vF 1, .vF 2]) =
      .ok (.mk "P" [.fString "Value", .fString "Vector3D", .fString "Vector", .fString "",
        .fFloat64 1, .fFloat64 2] []) ∧
    (2 : Nat) ≠ 3 := ⟨rfl, by decide⟩

/-- C4 (amended): full characterization of `elem_props_template_set` against
`_elem_props_set` when the kind and the template entry both resolve.
(i) For a single-setter kind, a value Python-equal to the recorded default
with a matching kind name appends nothing.  (ii) For a multi-setter kind the
skip happens after `tuple(...)` conversion of both the default and the
value, elementwise-equal with matching kind name.  (iii) A setter-less kind
(`p_object`) is never skipped: the source's `len(ptype) == 4` / `> 4` tests
both fail at length 3, so even a value identical to the recorded default is
re-encoded — refuting the claim's zero-output branch.  (iv) For a
single-setter kind a differing value or kind defers to the plain encoder.
(v) For a multi-setter kind a non-iterable recorded default is a
`TypeError` even when the plain encoder would succeed.  (vi) For a
multi-setter kind with both conversions succeeding, a differing value or
kind defers to the plain encoder.  (vii) Whenever the call appends one
property, that property is exactly `_elem_props_set`'s output. -/
theorem claim_C4_amended :
    (∀ (template : FBXTemplate) (ptypeName name : String) (value : PyVal)
       (pdef : PDef) (tv : PyVal) (tp : String),
       alookup ptypeName FBX_PROPERTIES_DEFINITIONS = some pdef →
       alookup name template.properties = some (tv, tp) →
       ((pdef.setters.length = 1 → pyEq tv value = true → tp = ptypeName →
          elemPropsTemplateSet template ptypeName name value = .ok []) ∧
        (∀ l1 l2, 2 ≤ pdef.setters.length → pyTuple tv = .ok l1 →
          pyTuple value = .ok l2 → pyEqL l1 l2 = true → tp = ptypeName →
          elemPropsTemplateSet template ptypeName name value = .ok []) ∧
        (pdef.setters = [] →
          elemPropsTemplateSet template ptypeName name value =
            Except.map (fun p => [p]) (elem_props_set ptypeName name value)) ∧
        (pdef.setters.length = 1 →
          (pyEq tv value = false ∨ tp ≠ ptypeName) →
          elemPropsTemplateSet template ptypeName name value =
            Except.map (fun p => [p]) (elem_props_set ptypeName name value)) ∧
        (∀ e, 2 ≤ pdef.setters.length → pyTuple tv = .error e →
          elemPropsTemplateSet template ptypeName name value = .error e) ∧
        (∀ l1 l2, 2 ≤ pdef.setters.length → pyTuple tv = .ok l1 →
          pyTuple value = .ok l2 →
          (pyEqL l1 l2 = false ∨ tp ≠ ptypeName) →
          elemPropsTemplateSet template ptypeName name value =
            Except.map (fun p => [p]) (elem_props_set ptypeName name value)))) ∧
    (∀ (template : FBXTemplate) (ptypeName name : String) (value : PyVal)
       (p : FBXElem),
       elemPropsTemplateSet template ptypeName name value = .ok [p] →
       elem_props_set ptypeName name value = .ok p) := by
  constructor
  · intro template ptypeName name value pdef tv tp hl hm
    refine ⟨?_, ?_, ?_, ?_, ?_, ?_⟩
    · intro h1 hpy htp
      simp only [elemPropsTemplateSet, hl, hm]
      rw [if_pos h1]
      have hc : (pyEq tv value && decide (tp = ptypeName)) = true := by
        rw [hpy, htp]; simp
      rw [if_pos hc]
    · intro l1 l2 h2 ht1 ht2 hpy htp
      have hn1 : ¬ pdef.setters.length = 1 := by omega
      simp only [elemPropsTemplateSet, hl, hm, ht1, ht2]
      rw [if_neg hn1, if_pos h2]
      have hc : (pyEqL l1 l2 && decide (tp = ptypeName)) = true := by
        rw [hpy, htp]; simp
      rw [if_pos hc]
    · intro h0
      have hn1 : ¬ pdef.setters.length = 1 := by rw [h0]; simp
      have hn2 : ¬ 2 ≤ pdef.setters.length := by rw [h0]; simp
      simp only [elemPropsTemplateSet, hl, hm]
      rw [if_neg hn1, if_neg hn2, elem_props_set_eq_raw hl]
      cases hr : elemPropsSetRaw pdef name value <;> simp [Except.map]
    · intro h1 hdiff
      simp only [elemPropsTemplateSet, hl, hm]
      rw [if_pos h1]
      have hc : ¬ ((pyEq tv value && decide (tp = ptypeName)) = true) := by
        rcases hdiff with h | h
        · simp [h]
        · simp [h]
      rw [if_neg hc, elem_props_set_eq_raw hl]
      cases hr : elemPropsSetRaw pdef name value <;> simp [Except.map]
    · intro e h2 hte
      have hn1 : ¬ pdef.setters.length = 1 := by omega
      simp only [elemPropsTemplateSet, hl, hm, hte]
      rw [if_neg hn1, if_pos h2]
    · intro l1 l2 h2 ht1 ht2 hdiff
      have hn1 : ¬ pdef.setters.length = 1 := by omega
      simp only [elemPropsTemplateSet, hl, hm, ht1, ht2]
      rw [if_neg hn1, if_pos h2]
      have hc : ¬ ((pyEqL l1 l2 && decide (tp = ptypeName)) = true) := by
        rcases hdiff with h | h
        · simp [h]
        · simp [h]
      rw [if_neg hc, elem_props_set_eq_raw hl]
      cases hr : elemPropsSetRaw pdef name value <;> simp [Except.map]
  · intro template ptypeName name value p h
    cases hl : alookup ptypeName FBX_PROPERTIES_DEFINITIONS with
    | none => simp [elemPropsTemplateSet, hl] at h
    | some pdef =>
      rw [elem_props_set_eq_raw hl]
      cases hm : alookup name template.properties with
      | none =>
        simp only [elemPropsTemplateSet, hl, hm] at h
        cases hr : elemPropsSetRaw pdef name value with
        | error e => rw [hr] at h; simp at h
        | ok q => rw [hr] at h; simp at h; rw [h]
      | some pr =>
        obtain ⟨tv, tp⟩ := pr
        simp only [elemPropsTemplateSet, hl, hm] at h
        by_cases h1 : pdef.setters.length = 1
        · rw [if_pos h1] at h
          by_cases hc : (pyEq tv value && decide (tp = ptypeName)) = true
          · rw [if_pos hc] at h
            simp at h
          · rw [if_neg hc] at h
            cases hr : elemPropsSetRaw pdef name value with
            | error e => rw [hr] at h; simp at h
            | ok q => rw [hr] at h; simp at h; rw [h]
        · rw [if_neg h1] at h
          by_cases h2 : 2 ≤ pdef.setters.length
          · rw [if_pos h2] at h
            cases ht1 : pyTuple tv with
            | error e => rw [ht1] at h; simp at h
            | ok l1 =>
              simp only [ht1] at h
              cases ht2 : pyTuple value with
              | error e => rw [ht2] at h; simp at h
              | ok l2 =>
                simp only [ht2] at h
                by_cases hc : (pyEqL l1 l2 && decide (tp = ptypeName)) = true
                · rw [if_pos hc] at h
                  simp at h
                · rw [if_neg hc] at h
                  cases hr : elemPropsSetRaw pdef name value with
                  | error e => rw [hr] at h; simp at h
                  | ok q => rw [hr] at h; simp at h; rw [h]
          · rw [if_neg h2] at h
            cases hr : elemPropsSetRaw pdef name value with
            | error e => rw [hr] at h; simp at h
            | ok q => rw [hr] at h; simp at h; rw [h]

theorem claim_C4_witness :
    alookup "BBoxMin" tmplC4w.properties = some (v3 0 0 0, "p_vector_3d") ∧
    elemPropsTemplateSet tmplC4w "p_vector_3d" "BBoxMin" (v3 0 0 0) = .ok [] :=
  ⟨rfl,
   (claim_C4_amended.1 tmplC4w "p_vector_3d" "BBoxMin" (v3 0 0 0)
      ⟨"Vector3D", "Vector", "", [.addFloat64, .addFloat64, .addFloat64]⟩
      (v3 0 0 0) "p_vector_3d" (by decide) rfl).2.1
    [.vF 0, .vF 0, .vF 0] [.vF 0, .vF 0, .vF 0]
    (by decide) rfl rfl (by decide) rfl⟩

/-- C4 (counterexample to the claim as stated): the camera/Model templates
record `LookAtProperty` with kind `p_object` and default `None`; writing
that property with exactly the recorded default value and kind still
appends one property instead of zero, because the skip test covers only
`len(ptype) == 4` and `len(ptype) > 4` and `p_object`'s tuple has length 3. -/
theorem claim_C4_counterexample :
    alookup "LookAtProperty" tmplC4.properties = some (.vNone, "p_object") ∧
    pyEq .vNone .vNone = true ∧
    elemPropsTemplateSet tmplC4 "p_object" "LookAtProperty" .vNone =
      .ok [.mk "P" [.fString "LookAtProperty", .fString "object",
        .fString "", .fString ""] []] :=
  ⟨rfl, rfl, rfl⟩

/-- C9: on the claim's own scenario — one supported material used by two
mesh objects — the export never reaches the Definitions or Connections
stages: the texture-collection loop at line 1256 iterates
`material.texture_slots` where `material` is an undefined name (the loop
variable is `mat`), so `fbx_data_from_scene` raises `NameError` as soon as
`data_materials` is non-empty.  The material is collected with both using
objects before the crash, showing the scenario does exercise the broken
loop. -/
theorem claim_C9_producer_raises_nameerror :
    (collectObjects stdSettings matScene).length = 2 ∧
    collectMaterials (collectObjects stdSettings matScene) =
      [(mat1, (blenderKeyMaterial mat1, [meshObjA, meshObjB]))] ∧
    fbx_data_from_scene stdSettings matScene =
      .error "NameError: name material is not defined" :=
  ⟨rfl, by decide, rfl⟩

/-! ## Registry preservation through the emitters (C5) -/

theorem keeps_pure {α : Type} (a : α) : KeepsKeys (pure a : EmitM α) := by
  intro s b s' hrun k u hk
  have h2 : (Except.ok (a, s) : Except String (α × RegState)) = .ok (b, s') := hrun
  simp only [Except.ok.injEq, Prod.mk.injEq] at h2
  rw [← h2.2]
  exact hk

theorem keeps_bind {α β : Type} {m : EmitM α} {f : α → EmitM β}
    (hm : KeepsKeys m) (hf : ∀ a, KeepsKeys (f a)) : KeepsKeys (m >>= f) := by
  intro s b s' hrun k u hk
  have hrun' : Except.bind (m.run s) (fun p => (f p.1).run p.2) = .ok (b, s') := hrun
  cases hm1 : m.run s with
  | error e => rw [hm1] at hrun'; simp [Except.bind] at hrun'
  | ok p =>
    rw [hm1] at hrun'
    simp only [Except.bind] at hrun'
    exact hf p.1 p.2 b s' hrun' k u (hm s p.1 p.2 hm1 k u hk)

theorem keeps_liftE {α : Type} (e : Except String α) : KeepsKeys (liftE e) := by
  intro s a s' hrun k u hk
  have hrun' : Except.map (fun x => (x, s)) e = .ok (a, s') := hrun
  cases e with
  | error msg => simp [Except.map] at hrun'
  | ok x =>
    simp only [Except.map, Except.ok.injEq, Prod.mk.injEq] at hrun'
    rw [← hrun'.2]
    exact hk

theorem keeps_getUid (h : PyKey → Int) (key : PyKey) : KeepsKeys (getUidM h key) := by
  intro s a s' hrun k u hk
  have hrun' : get_fbxuid_from_key h s key = .ok (a, s') := hrun
  exact get_mono hrun' hk

theorem keeps_fail {α : Type} (msg : String) :
    KeepsKeys (show EmitM α from fun _ => .error msg) := by
  intro s a s' hrun k u hk
  simp [StateT.run] at hrun

theorem keeps_mapM {α β : Type} (f : α → EmitM β) (hf : ∀ a, KeepsKeys (f a)) :
    ∀ (l : List α), KeepsKeys (l.mapM f) := by
  intro l
  induction l with
  | nil =>
    rw [List.mapM_nil]
    exact keeps_pure []
  | cons x xs ih =>
    rw [List.mapM_cons]
    exact keeps_bind (hf x) (fun b => keeps_bind ih (fun bs => keeps_pure (b :: bs)))

theorem keeps_lamp (h : PyKey → Int) (lamp : BlLamp) (data : FBXData) :
    KeepsKeys (fbx_data_lamp_elements h lamp data) := by
  unfold fbx_data_lamp_elements
  repeat' first
    | apply keeps_liftE
    | apply keeps_getUid
    | apply keeps_pure
    | apply keeps_bind
    | split
    | intro x

theorem keeps_camera (h : PyKey → Int) (orc : Oracles) (camObj : BObject)
    (data : FBXData) : KeepsKeys (fbx_data_camera_elements h orc camObj data) := by
  unfold fbx_data_camera_elements
  repeat' first
    | apply keeps_liftE
    | apply keeps_getUid
    | apply keeps_pure
    | apply keeps_bind
    | split
    | intro x

theorem keeps_mesh (h : PyKey → Int) (orc : Oracles) (me : BlMesh)
    (data : FBXData) : KeepsKeys (fbx_data_mesh_elements h orc me data) := by
  unfold fbx_data_mesh_elements
  repeat' first
    | apply keeps_liftE
    | apply keeps_getUid
    | apply keeps_pure
    | apply keeps_bind
    | split
    | intro x

theorem keeps_material (h : PyKey → Int) (mat : BlMaterial) (data : FBXData) :
    KeepsKeys (fbx_data_material_elements h mat data) := by
  intro s a s' hrun k u hk
  simp [fbx_data_material_elements, StateT.run] at hrun

theorem keeps_texfile (h : PyKey → Int) (tex : BlTex) (data : FBXData) :
    KeepsKeys (fbx_data_texture_file_elements h tex data) := by
  intro s a s' hrun k u hk
  simp [fbx_data_texture_file_elements, StateT.run] at hrun

theorem keeps_video (h : PyKey → Int) (vid : BlImg) (data : FBXData) :
    KeepsKeys (fbx_data_video_elements h vid data) := by
  intro s a s' hrun k u hk
  simp [fbx_data_video_elements, StateT.run] at hrun

theorem keeps_model (h : PyKey → Int) (orc : Oracles) (obj : BObject)
    (data : FBXData) : KeepsKeys (objModelElem h orc obj data) := by
  unfold objModelElem
  repeat' first
    | apply keeps_liftE
    | apply keeps_getUid
    | apply keeps_pure
    | apply keeps_bind
    | split
    | intro x

theorem keeps_objElems (h : PyKey → Int) (orc : Oracles) (obj : BObject)
    (data : FBXData) : KeepsKeys (fbx_data_object_elements h orc obj data) := by
  unfold fbx_data_object_elements
  apply keeps_bind (keeps_model h orc obj data)
  intro model
  repeat' first
    | apply keeps_liftE
    | apply keeps_getUid
    | apply keeps_pure
    | apply keeps_bind
    | split
    | intro x

theorem keeps_docs (h : PyKey → Int) (sceneName : String) :
    KeepsKeys (fbx_documents_elements h sceneName) := by
  unfold fbx_documents_elements
  repeat' first
    | apply keeps_liftE
    | apply keeps_getUid
    | apply keeps_pure
    | apply keeps_bind
    | split
    | intro x

theorem keeps_objects (h : PyKey → Int) (orc : Oracles) (data : FBXData) :
    KeepsKeys (fbx_objects_elements h orc data) := by
  unfold fbx_objects_elements
  refine keeps_bind
    (keeps_mapM _ (fun p => keeps_lamp h p.1 data) data.data_lamps) (fun ls => ?_)
  refine keeps_bind
    (keeps_mapM _ (fun p => keeps_camera h orc p.1 data) data.data_cameras) (fun cs => ?_)
  refine keeps_bind
    (keeps_mapM _ (fun p => keeps_mesh h orc p.1 data) data.data_meshes) (fun ms => ?_)
  refine keeps_bind
    (keeps_mapM _ (fun p => keeps_objElems h orc p.1 data) data.objects) (fun os => ?_)
  refine keeps_bind
    (keeps_mapM _ (fun p => keeps_material h p.1 data) data.data_materials) (fun mats => ?_)
  refine keeps_bind
    (keeps_mapM _ (fun p => keeps_texfile h p.1 data) data.data_textures) (fun texs => ?_)
  refine keeps_bind
    (keeps_mapM _ (fun p => keeps_video h p.1 data) data.data_videos) (fun vids => ?_)
  apply keeps_pure

theorem keeps_connObj (h : PyKey → Int) (data : FBXData) (p : BObject × String) :
    KeepsKeys (connObjEdge h data p) := by
  unfold connObjEdge
  exact keeps_bind (keeps_getUid h (.kStr p.2))
    (fun us => keeps_bind (keeps_getUid h (objParentKey data p.1))
      (fun ud => keeps_pure _))

theorem keeps_connCam (h : PyKey → Int) (data : FBXData)
    (p : BObject × (String × String × String)) : KeepsKeys (connCamEdges h data p) := by
  unfold connCamEdges
  repeat' first
    | apply keeps_liftE
    | apply keeps_getUid
    | apply keeps_pure
    | apply keeps_bind
    | split
    | intro x

theorem keeps_connData (h : PyKey → Int) (data : FBXData) (p : BObject × String) :
    KeepsKeys (connDataEdges h data p) := by
  unfold connDataEdges
  repeat' first
    | apply keeps_liftE
    | apply keeps_getUid
    | apply keeps_pure
    | apply keeps_bind
    | split
    | intro x

theorem keeps_conns (h : PyKey → Int) (data : FBXData) :
    KeepsKeys (fbx_connections_elements h data) := by
  unfold fbx_connections_elements
  refine keeps_bind
    (keeps_mapM _ (fun p => keeps_connObj h data p) data.objects) (fun objEdges => ?_)
  refine keeps_bind
    (keeps_mapM _ (fun p => keeps_connCam h data p) data.data_cameras) (fun camEdges => ?_)
  refine keeps_bind
    (keeps_mapM _ (fun p => keeps_connData h data p) data.objects) (fun dataEdges => ?_)
  refine keeps_bind
    (keeps_mapM _ (fun p => keeps_mapM _ (fun q => keeps_fail _) p.2.2)
      data.data_materials)
    (fun matEdges => ?_)
  refine keeps_bind
    (keeps_mapM _ (fun p => keeps_fail _) data.data_textures) (fun texEdges => ?_)
  refine keeps_bind
    (keeps_mapM _ (fun p => keeps_fail _) data.data_videos) (fun vidEdges => ?_)
  apply keeps_pure

theorem keeps_save (h : PyKey → Int) (orc : Oracles) (env : BlEnv)
    (st : FBXSettingsM) (sc : BlScene) : KeepsKeys (save_single h orc env st sc) := by
  unfold save_single
  refine keeps_bind (keeps_liftE _) (fun scene_data => ?_)
  refine keeps_bind (keeps_liftE _) (fun hdr => ?_)
  refine keeps_bind (keeps_docs h sc.name) (fun docs => ?_)
  refine keeps_bind (keeps_liftE _) (fun defs => ?_)
  refine keeps_bind (keeps_objects h orc scene_data) (fun objs => ?_)
  refine keeps_bind (keeps_conns h scene_data) (fun conns => ?_)
  apply keeps_pure

/-- C5 (amended): `save_single` never re-initializes the module-level UID
registry — it only extends whatever state the globals already held.  Every
key registered before a successful run is still bound to the same UID
afterwards, and a later `get_fbxuid_from_key` on that key (as an
independent later export would perform) returns that leaked UID as a pure
cache hit.  This refutes the claimed per-run reset: assignments made during
one export are visible to, and influence, later exports in the same
process. -/
theorem claim_C5_registry_persists :
    ∀ (h : PyKey → Int) (orc : Oracles) (env : BlEnv) (st : FBXSettingsM)
      (sc : BlScene) (s : RegState) (out : FBXElem) (s' : RegState),
      (save_single h orc env st sc).run s = .ok (out, s') →
      ∀ (k : PyKey) (u : Int), alookup k s.keysToUids = some u →
        alookup k s'.keysToUids = some u ∧
        get_fbxuid_from_key h s' k = .ok (u, s') := by
  intro h orc env st sc s out s' hrun k u hk
  have hk' : alookup k s'.keysToUids = some u :=
    keeps_save h orc env st sc s out s' hrun k u hk
  exact ⟨hk', get_cached hk'⟩

theorem claim_C5_witness :
    alookup (PyKey.kStr "q") s0C5.keysToUids = some 3 ∧
    alookup (PyKey.kStr "q") runC5.2.keysToUids = some 3 ∧
    get_fbxuid_from_key hC5 runC5.2 (.kStr "q") = .ok (3, runC5.2) :=
  ⟨rfl,
   (claim_C5_registry_persists hC5 trivOrc envW stdSettings sceneT s0C5
      runC5.1 runC5.2 rfl (.kStr "q") 3 rfl).1,
   (claim_C5_registry_persists hC5 trivOrc envW stdSettings sceneT s0C5
      runC5.1 runC5.2 rfl (.kStr "q") 3 rfl).2⟩

/-- C5 (counterexample to the claim as stated): a `save_single` run of the
empty scene `T` started from the empty registry leaves the document key
registered with UID 5; an independent later export's allocation for a fresh
key (under the same all-5 hash) then returns 6 where a fresh registry would
return 5 — the first run's assignment influences the later one. -/
theorem claim_C5_counterexample :
    (regAfterSave hC5 trivOrc envW stdSettings sceneT regInit).keysToUids =
      [(.kStr "__FBX_Document__T", 5)] ∧
    uidOf hC5 (regAfterSave hC5 trivOrc envW stdSettings sceneT regInit)
      (.kStr "__FBX_Document__U") = 6 ∧
    uidOf hC5 regInit (.kStr "__FBX_Document__U") = 5 :=
  ⟨rfl, rfl, rfl⟩

/-! ## C7: the first connections loop -/

theorem run_bind_ok {α β : Type} {m : EmitM α} {f : α → EmitM β} {s s' : RegState}
    {b : β} (hrun : (m >>= f).run s = .ok (b, s')) :
    ∃ a s1, m.run s = .ok (a, s1) ∧ (f a).run s1 = .ok (b, s') := by
  have hrun' : Except.bind (m.run s) (fun p => (f p.1).run p.2) = .ok (b, s') := hrun
  cases hm : m.run s with
  | error e => rw [hm] at hrun'; simp [Except.bind] at hrun'
  | ok p =>
    rw [hm] at hrun'
    simp only [Except.bind] at hrun'
    exact ⟨p.1, p.2, rfl, hrun'⟩

theorem run_pure_ok {α : Type} {a b : α} {s s' : RegState}
    (h : (pure a : EmitM α).run s = .ok (b, s')) : b = a ∧ s' = s := by
  have h2 : (Except.ok (a, s) : Except String (α × RegState)) = .ok (b, s') := h
  simp only [Except.ok.injEq, Prod.mk.injEq] at h2
  exact ⟨h2.1.symm, h2.2.symm⟩

/-- Inversion of one iteration of the first connections loop: the source
UID comes from the object's key, the destination UID from `objParentKey`,
in that order. -/
theorem connObjEdge_run_ok {h : PyKey → Int} {data : FBXData}
    {p : BObject × String} {s : RegState} {e : FBXElem} {s' : RegState}
    (hrun : (connObjEdge h data p).run s = .ok (e, s')) :
    ∃ us sm ud, get_fbxuid_from_key h s (.kStr p.2) = .ok (us, sm) ∧
      get_fbxuid_from_key h sm (objParentKey data p.1) = .ok (ud, s') ∧
      e = elem_connection_oo us ud := by
  unfold connObjEdge at hrun
  obtain ⟨us, s1, h1, hrest⟩ := run_bind_ok hrun
  obtain ⟨ud, s2, h2, h3⟩ := run_bind_ok hrest
  obtain ⟨he, hs⟩ := run_pure_ok h3
  refine ⟨us, s1, ud, h1, ?_, he⟩
  rw [hs]
  exact h2

/-- C7 (amended): in the first connections loop, every object of the
dataset's objects map produces exactly one OO edge, in map order; its
source is the UID the registry assigns to the object's key and its
destination is the UID the registry assigns to `par_key` — the parent's key
when `obj.parent` is present in the objects map, and the integer key `0`
otherwise.  The destination for an unparented object is therefore
`get_fbxuid_from_key(0)`, which is 0 only while UID 0 is still free, not
the literal UID 0 the claim states.  Both UIDs are registered in the loop's
final state. -/
theorem claim_C7_connections_edges :
    ∀ (h : PyKey → Int) (data : FBXData) (s : RegState) (res : List FBXElem)
      (s' : RegState),
      (data.objects.mapM (connObjEdge h data)).run s = .ok (res, s') →
      List.Forall₂
        (fun (p : BObject × String) (e : FBXElem) =>
          ∃ us ud, alookup (PyKey.kStr p.2) s'.keysToUids = some us ∧
            alookup (objParentKey data p.1) s'.keysToUids = some ud ∧
            e = elem_connection_oo us ud)
        data.objects res := by
  intro h data
  suffices hgen : ∀ (l : List (BObject × String)) (s : RegState)
      (res : List FBXElem) (s' : RegState),
      (l.mapM (connObjEdge h data)).run s = .ok (res, s') →
      List.Forall₂
        (fun (p : BObject × String) (e : FBXElem) =>
          ∃ us ud, alookup (PyKey.kStr p.2) s'.keysToUids = some us ∧
            alookup (objParentKey data p.1) s'.keysToUids = some ud ∧
            e = elem_connection_oo us ud) l res by
    intro s res s' hrun
    exact hgen data.objects s res s' hrun
  intro l
  induction l with
  | nil =>
    intro s res s' hrun
    rw [List.mapM_nil] at hrun
    obtain ⟨hres, _⟩ := run_pure_ok hrun
    rw [hres]
    exact List.Forall₂.nil
  | cons p t ih =>
    intro s res s' hrun
    rw [List.mapM_cons] at hrun
    obtain ⟨e, s1, h1, hrest⟩ := run_bind_ok hrun
    obtain ⟨es, s2, h2, h3⟩ := run_bind_ok hrest
    obtain ⟨hres, hs⟩ := run_pure_ok h3
    subst hres
    subst hs
    obtain ⟨us, sm, ud, hg1, hg2, he⟩ := connObjEdge_run_ok h1
    have htail := ih s1 es s' h2
    have hkeep := keeps_mapM (connObjEdge h data) (fun q => keeps_connObj h data q) t
    refine List.Forall₂.cons ⟨us, ud, ?_, ?_, he⟩ htail
    · exact hkeep s1 es s' h2 _ us (get_mono hg2 (get_reg hg1))
    · exact hkeep s1 es s' h2 _ ud (get_reg hg2)

theorem claim_C7_witness :
    List.Forall₂
      (fun (p : BObject × String) (e : FBXElem) =>
        ∃ us ud, alookup (PyKey.kStr p.2) runC7.2.keysToUids = some us ∧
          alookup (objParentKey (dataOf stdSettings sceneA) p.1) runC7.2.keysToUids = some ud ∧
          e = elem_connection_oo us ud)
      (dataOf stdSettings sceneA).objects runC7.1 :=
  claim_C7_connections_edges h7 (dataOf stdSettings sceneA) s0C7 runC7.1 runC7.2 rfl

/-- C7 (counterexample to the claim as stated): an unparented object's edge
does not go to UID 0 when UID 0 was already claimed by an earlier key — the
integer key `0` then allocates UID 1 and the edge destination is 1. -/
theorem claim_C7_counterexample :
    objA.parent = none ∧
    (runPassOf (fbx_connections_elements h7 (dataOf stdSettings sceneA)) s0C7
       (elem_empty "")).1 =
      .mk "Connections" [] [.mk "C" [.fString "OO", .fInt64 7, .fInt64 1] []] ∧
    (1 : Int) ≠ 0 :=
  ⟨rfl, rfl, by decide⟩

/-! ## C2: the declared Definitions count versus the Objects block -/

theorem mem_dinsert {α β : Type} [DecidableEq α] {m : List (α × β)} {k : α}
    {v : β} {q : α × β} (hq : q ∈ dinsert m k v) : q = (k, v) ∨ q ∈ m := by
  unfold dinsert at hq
  split at hq
  · obtain ⟨p, hp, hfp⟩ := List.mem_map.mp hq
    by_cases hpk : p.1 = k
    · left
      rw [← hfp]
      simp [hpk]
    · right
      rw [← hfp]
      simpa [hpk] using hp
  · rcases List.mem_append.mp hq with h | h
    · right; exact h
    · left; simpa using h

theorem mapM_run_length {α β : Type} (f : α → EmitM β) :
    ∀ (l : List α) {s : RegState} {res : List β} {s' : RegState},
      (l.mapM f).run s = .ok (res, s') → res.length = l.length := by
  intro l
  induction l with
  | nil =>
    intro s res s' hrun
    rw [List.mapM_nil] at hrun
    rw [(run_pure_ok hrun).1]
    rfl
  | cons x xs ih =>
    intro s res s' hrun
    rw [List.mapM_cons] at hrun
    obtain ⟨b, s1, h1, hrest⟩ := run_bind_ok hrun
    obtain ⟨bs, s2, h2, h3⟩ := run_bind_ok hrest
    rw [(run_pure_ok h3).1]
    simp [ih h2]

theorem pair_flatten_length {α : Type} (cs : List (α × α)) :
    ((cs.map (fun c => [c.1, c.2])).flatten).length = 2 * cs.length := by
  induction cs with
  | nil => rfl
  | cons c t ih =>
    simp only [List.map_cons, List.flatten_cons, List.length_append, ih,
      List.length_cons, List.length_nil]
    omega

theorem dataMatches_camera {o : BObject} (hdm : dataMatches o = true)
    (hc : o.otype = ObjType.CAMERA) : ∃ c, o.odata = BlData.dCamera c := by
  unfold dataMatches at hdm
  rw [hc] at hdm
  cases hd : o.odata with
  | dCamera c => exact ⟨c, rfl⟩

  | dLamp l => rw [hd] at hdm; simp at hdm
  | dMesh m => rw [hd] at hdm; simp at hdm
  | dNone => rw [hd] at hdm; simp at hdm

/-- One object contributes one `Model` data block, two for a camera (the
synthetic camera-switcher `Model`). -/
theorem objElems_run_card {h : PyKey → Int} {orc : Oracles} {obj : BObject}
    {data : FBXData} {s : RegState} {elems : List FBXElem} {s' : RegState}
    (hrun : (fbx_data_object_elements h orc obj data).run s = .ok (elems, s')) :
    elems.length = if obj.otype = ObjType.CAMERA then 2 else 1 := by
  unfold fbx_data_object_elements at hrun
  obtain ⟨model, s1, hm, hrest⟩ := run_bind_ok hrun
  by_cases hc : obj.otype = ObjType.CAMERA
  · rw [if_pos hc] at hrest ⊢
    obtain ⟨keys, s2, hk, hrest2⟩ := run_bind_ok hrest
    obtain ⟨a, b, c⟩ := keys
    obtain ⟨uidSw, s3, hu, hrest3⟩ := run_bind_ok hrest2
    rw [(run_pure_ok hrest3).1]
    rfl
  · rw [if_neg hc] at hrest ⊢
    rw [(run_pure_ok hrest).1]
    rfl

theorem objs_flatten_card (h : PyKey → Int) (orc : Oracles) (data : FBXData) :
    ∀ (l : List (BObject × String)) {s : RegState} {os : List (List FBXElem)}
      {s' : RegState},
      (l.mapM (fun p => fbx_data_object_elements h orc p.1 data)).run s = .ok (os, s') →
      os.flatten.length =
        l.length + l.countP (fun p => decide (p.1.otype = ObjType.CAMERA)) := by
  intro l
  induction l with
  | nil =>
    intro s os s' hrun
    rw [List.mapM_nil] at hrun
    rw [(run_pure_ok hrun).1]
    rfl
  | cons p t ih =>
    intro s os s' hrun
    rw [List.mapM_cons] at hrun
    obtain ⟨e, s1, h1, hrest⟩ := run_bind_ok hrun
    obtain ⟨es, s2, h2, h3⟩ := run_bind_ok hrest
    rw [(run_pure_ok h3).1]
    have hlen := objElems_run_card h1
    have htail := ih h2
    simp only [List.flatten_cons, List.length_append, List.countP_cons, htail,
      List.length_cons]
    by_cases hc : p.1.otype = ObjType.CAMERA
    · rw [if_pos hc] at hlen
      simp [hlen, hc]
      omega
    · rw [if_neg hc] at hlen
      simp [hlen, hc]
      omega

theorem foldl_objstep_mem (st : FBXSettingsM) :
    ∀ (l : List BObject) (m : List (BObject × String)) (p : BObject × String),
      p ∈ l.foldl
        (fun m o => if o.otype ∈ st.object_types then dinsert m o (blenderKeyObject o) else m)
        m →
      p ∈ m ∨ p.1 ∈ l := by
  intro l
  induction l with
  | nil =>
    intro m p hp
    exact Or.inl hp
  | cons o t ih =>
    intro m p hp
    rw [List.foldl_cons] at hp
    rcases ih _ p hp with hm | ht
    · by_cases hc : o.otype ∈ st.object_types
      · rw [if_pos hc] at hm
        rcases mem_dinsert hm with heq | hmm
        · right
          rw [heq]
          simp
        · left; exact hmm
      · rw [if_neg hc] at hm
        left; exact hm
    · right; simp [ht]

theorem collectObjects_subset (st : FBXSettingsM) (sc : BlScene) :
    ∀ p ∈ collectObjects st sc, p.1 ∈ sc.objects := by
  intro p hp
  unfold collectObjects at hp
  rcases foldl_objstep_mem st sc.objects [] p hp with h | h
  · simp at h
  · exact h

theorem foldl_objstep_nodup (st : FBXSettingsM) :
    ∀ (l : List BObject) (m : List (BObject × String)),
      (m.map Prod.fst).Nodup →
      ((l.foldl
        (fun m o => if o.otype ∈ st.object_types then dinsert m o (blenderKeyObject o) else m)
        m).map Prod.fst).Nodup := by
  intro l
  induction l with
  | nil => intro m hm; exact hm
  | cons o t ih =>
    intro m hm
    rw [List.foldl_cons]
    apply ih
    by_cases hc : o.otype ∈ st.object_types
    · rw [if_pos hc]
      exact dinsert_fst_nodup hm o (blenderKeyObject o)
    · rw [if_neg hc]
      exact hm

theorem collectObjects_nodup (st : FBXSettingsM) (sc : BlScene) :
    ((collectObjects st sc).map Prod.fst).Nodup := by
  unfold collectObjects
  exact foldl_objstep_nodup st sc.objects [] (by simp)

theorem collectCameras_acc_length :
    ∀ (l : List (BObject × String)) (m : List (BObject × (String × String × String))),
      (∀ p ∈ l, dataMatches p.1 = true) →
      (∀ p ∈ l, ∀ q ∈ m, q.1 ≠ p.1) →
      l.Pairwise (fun a b => a.1 ≠ b.1) →
      (l.foldl
        (fun m p =>
          if p.1.otype = ObjType.CAMERA then
            match p.1.odata with
            | .dCamera c => dinsert m p.1 (get_blender_camera_keys c)
            | _ => m
          else m) m).length =
        m.length + l.countP (fun p => decide (p.1.otype = ObjType.CAMERA)) := by
  intro l
  induction l with
  | nil =>
    intro m _ _ _
    simp
  | cons p t ih =>
    intro m hwf hdisj hpw
    rw [List.foldl_cons, List.countP_cons]
    by_cases hc : p.1.otype = ObjType.CAMERA
    · obtain ⟨c, hcam⟩ := dataMatches_camera (hwf p (by simp)) hc
      rw [if_pos hc]
      simp only [hcam]
      have hnone : alookup p.1 m = none :=
        alookup_of_forall_ne (fun q hq => hdisj p (by simp) q hq)
      rw [dinsert_absent _ hnone]
      rw [ih (m ++ [(p.1, get_blender_camera_keys c)])
        (fun q hq => hwf q (by simp [hq]))
        (fun q hq r hr => by
          rcases List.mem_append.mp hr with h | h
          · exact hdisj q (by simp [hq]) r h
          · simp at h
            rw [h]
            exact (List.pairwise_cons.mp hpw).1 q hq)
        (List.pairwise_cons.mp hpw).2]
      simp [hc]
      omega
    · rw [if_neg hc]
      rw [ih m (fun q hq => hwf q (by simp [hq]))
        (fun q hq r hr => hdisj q (by simp [hq]) r hr)
        (List.pairwise_cons.mp hpw).2]
      simp [hc]

/-- Inversion of a successful `fbx_data_from_scene` call: the collected
maps, the empty texture-side maps, and the declared-total identity.  The
closed form of `templates_users` already eliminates the per-template
emptiness conditionals (an absent template contributes a zero count). -/
theorem producer_inv {st : FBXSettingsM} {sc : BlScene} {data : FBXData}
    (hdata : fbx_data_from_scene st sc = .ok data) :
    data.templates_users = (data.templates.map (fun p => p.2.nbr_users)).sum ∧
    data.objects = collectObjects st sc ∧
    data.data_lamps = collectLamps (collectObjects st sc) ∧
    data.data_cameras = collectCameras (collectObjects st sc) ∧
    data.data_meshes = collectMeshes (collectObjects st sc) ∧
    data.data_materials = [] ∧
    data.data_textures = [] ∧
    data.data_videos = [] ∧
    data.templates_users =
      1 + (((data.objects.length : Int) + (data.data_cameras.length : Int)) +
        ((data.data_lamps.length : Int) +
          (2 * (data.data_cameras.length : Int) + (data.data_meshes.length : Int)))) := by
  have hmat : collectMaterials (collectObjects st sc) = [] := by
    by_contra hne
    simp only [fbx_data_from_scene] at hdata
    rw [if_pos hne] at hdata
    exact absurd hdata (by simp)
  have hOC : collectObjects st sc = [] → collectCameras (collectObjects st sc) = [] :=
    fun h0 => by rw [h0]; rfl
  simp only [fbx_data_from_scene] at hdata
  rw [if_neg (fun hcon => hcon hmat)] at hdata
  have heq := Except.ok.inj hdata
  refine ⟨?_, ?_, ?_, ?_, ?_, ?_, ?_, ?_, ?_⟩
  · rw [← heq]
  · rw [← heq]
  · rw [← heq]
  · rw [← heq]
  · rw [← heq]
  · rw [← heq]
    exact hmat
  · rw [← heq]
  · rw [← heq]
  · rw [← heq]
    show ((_ : List (String × FBXTemplate)).map (fun p => p.2.nbr_users)).sum = _
    rw [hmat]
    generalize hgC : collectCameras (collectObjects st sc) = C at hOC ⊢
    generalize hgL : collectLamps (collectObjects st sc) = L
    generalize hgM : collectMeshes (collectObjects st sc) = M
    generalize hgO : collectObjects st sc = O at hOC ⊢
    by_cases hO : O = []
    · rw [hO, hOC hO]
      by_cases hL : L = [] <;> by_cases hM : M = [] <;>
        simp [hL, hM, dinsert, alookup, fbx_template_def_globalsettings,
          fbx_template_def_light, fbx_template_def_geometry] <;>
        push_cast <;> ring
    · by_cases hL : L = [] <;> by_cases hC : C = [] <;> by_cases hM : M = [] <;>
        simp [hO, hL, hC, hM, dinsert, alookup, fbx_template_def_globalsettings,
          fbx_template_def_model, fbx_template_def_light, fbx_template_def_camera,
          fbx_template_def_cameraswitcher, fbx_template_def_geometry,
          fbx_template_def_material, fbx_template_def_texture_file,
          fbx_template_def_video] <;>
        push_cast <;> ring

/-- C2 (amended): for every dataset a successful `fbx_data_from_scene`
produces, the `Count` value written in the Definitions block equals the sum
of `nbr_users` over all templates — but that sum exceeds the number of
data-block elements under `Objects` by exactly one: the always-present
`GlobalSettings` template is created with `nbr_users = 1` (line 1223), and
no `GlobalSettings` data block is ever emitted.  In particular, for a scene
with no objects matching the class filter the declared total is 1, not the
0 the claim states (Objects and Connections are indeed childless there; see
the counterexample). -/
theorem claim_C2_count_off_by_one :
    ∀ (st : FBXSettingsM) (sc : BlScene) (data : FBXData) (h : PyKey → Int)
      (orc : Oracles) (s : RegState) (objsElem : FBXElem) (s' : RegState)
      (defs : FBXElem),
      SceneWF sc →
      fbx_data_from_scene st sc = .ok data →
      fbx_definitions_elements data = .ok defs →
      (fbx_objects_elements h orc data).run s = .ok (objsElem, s') →
      (∃ ts, defs = .mk "Definitions" []
          ([elemDataSingle "Version" (.fInt32 100),
            elemDataSingle "Count" (.fInt32 data.templates_users)] ++ ts)) ∧
      data.templates_users = (data.templates.map (fun p => p.2.nbr_users)).sum ∧
      data.templates_users = (objsElem.elems.length : Int) + 1 := by
  intro st sc data h orc s objsElem s' defs hwf hdata hdefs hobjs
  obtain ⟨hsum, hO, hL, hC, hM, hmat, htex, hvid, htotal⟩ := producer_inv hdata
  refine ⟨?_, hsum, ?_⟩
  · unfold fbx_definitions_elements at hdefs
    cases hg : data.templates.mapM (fun p => fbx_template_generate p.2) with
    | error e => rw [hg] at hdefs; exact absurd hdefs (by simp)
    | ok ts =>
      rw [hg] at hdefs
      exact ⟨ts, (Except.ok.inj hdefs).symm⟩
  · unfold fbx_objects_elements at hobjs
    obtain ⟨ls, s1, hls, hr1⟩ := run_bind_ok hobjs
    obtain ⟨cs, s2, hcs, hr2⟩ := run_bind_ok hr1
    obtain ⟨ms, s3, hms, hr3⟩ := run_bind_ok hr2
    obtain ⟨os, s4, hos, hr4⟩ := run_bind_ok hr3
    obtain ⟨mats, s5, hmats, hr5⟩ := run_bind_ok hr4
    obtain ⟨texs, s6, htexs, hr6⟩ := run_bind_ok hr5
    obtain ⟨vids, s7, hvids, hr7⟩ := run_bind_ok hr6
    obtain ⟨hout, _⟩ := run_pure_ok hr7
    subst hout
    have h1 : ls.length = data.data_lamps.length := mapM_run_length _ _ hls
    have h2 : cs.length = data.data_cameras.length := mapM_run_length _ _ hcs
    have h3 : ms.length = data.data_meshes.length := mapM_run_length _ _ hms
    have h4 : os.flatten.length = data.objects.length +
        data.objects.countP (fun p => decide (p.1.otype = ObjType.CAMERA)) :=
      objs_flatten_card h orc data data.objects hos
    have h5 : mats = [] := by
      rw [hmat, List.mapM_nil] at hmats
      exact (run_pure_ok hmats).1
    have h6 : texs = [] := by
      rw [htex, List.mapM_nil] at htexs
      exact (run_pure_ok htexs).1
    have h7' : vids = [] := by
      rw [hvid, List.mapM_nil] at hvids
      exact (run_pure_ok hvids).1
    have hwfO : ∀ p ∈ collectObjects st sc, dataMatches p.1 = true :=
      fun p hp => hwf p.1 (collectObjects_subset st sc p hp)
    have hpw : (collectObjects st sc).Pairwise (fun a b => a.1 ≠ b.1) := by
      have hnd := collectObjects_nodup st sc
      unfold List.Nodup at hnd
      rw [List.pairwise_map] at hnd
      exact hnd
    have hlenC : (collectCameras (collectObjects st sc)).length =
        (collectObjects st sc).countP (fun p => decide (p.1.otype = ObjType.CAMERA)) := by
      have hacc := collectCameras_acc_length (collectObjects st sc) [] hwfO
        (by simp) hpw
      simpa [collectCameras] using hacc
    have hcount : data.objects.countP (fun p => decide (p.1.otype = ObjType.CAMERA)) =
        data.data_cameras.length := by
      rw [hO, hC, hlenC]
    rw [htotal]
    have hpair := pair_flatten_length cs
    dsimp only [FBXElem.elems]
    simp only [List.length_append, h5, h6, h7', List.length_nil, hpair]
    rw [hcount] at h4
    push_cast [h1, h2, h3, h4]
    ring

/-- C2 (counterexample to the claim as stated): a scene whose only object
is outside the class filter yields childless Objects and Connections
blocks, but the Definitions `Count` is 1 — the `GlobalSettings` template is
created with one user, not zero. -/
theorem claim_C2_counterexample :
    fbx_data_from_scene stdSettings sceneC2 = .ok (dataOf stdSettings sceneC2) ∧
    (dataOf stdSettings sceneC2).templates_users = 1 ∧
    defsElemOf (dataOf stdSettings sceneC2) = .mk "Definitions" []
      [elemDataSingle "Version" (.fInt32 100),
       elemDataSingle "Count" (.fInt32 1),
       .mk "ObjectType" [.fString "GlobalSettings"] [elemDataSingle "Count" (.fInt32 1)]] ∧
    (runPassOf (fbx_objects_elements h7 trivOrc (dataOf stdSettings sceneC2)) regInit
       (elem_empty "")).1 = .mk "Objects" [] [] ∧
    (runPassOf (fbx_connections_elements h7 (dataOf stdSettings sceneC2)) regInit
       (elem_empty "")).1 = .mk "Connections" [] [] ∧
    (1 : Int) ≠ 0 :=
  ⟨rfl, rfl, rfl, rfl, rfl, by decide⟩

theorem claim_C2_witness :
    (∃ ts, defsElemOf dataC2w = .mk "Definitions" []
        ([elemDataSingle "Version" (.fInt32 100),
          elemDataSingle "Count" (.fInt32 dataC2w.templates_users)] ++ ts)) ∧
    dataC2w.templates_users = (dataC2w.templates.map (fun p => p.2.nbr_users)).sum ∧
    dataC2w.templates_users = ((runObjsC2w.1.elems.length : Int)) + 1 :=
  claim_C2_count_off_by_one stdSettings lampScene dataC2w h7 trivOrc regInit
    runObjsC2w.1 runObjsC2w.2 (defsElemOf dataC2w)
    (by unfold SceneWF; decide) rfl rfl (by with_unfolding_all rfl)

end FbxExport
